import Mathlib

/-
Verification of the schema-validation engine of validate_schema.py
(project_1_data_intake).  The engine is `validate(df, schema)`: it walks a
parsed schema mapping and an in-memory table and accumulates ValidationIssue
records, returning (is_valid, issues).

Embedding conventions:
* Parsed YAML / Python values are modelled by `Yaml` (None, bool, int, float,
  str, list, dict).  Python floats are modelled by `Rat`; float NaN inside a
  table column is modelled by `Yaml.null` together with the column dtype.
* A pandas Series is a dtype tag plus a list of cell values; a DataFrame is an
  ordered list of named Series.
* Python code that can raise an uncaught exception is modelled in
  `Except String`; the message only sketches the Python exception text.
* The external collaborators that the spec names as the Table Adapter contract
  (regex matching, datetime parsing, df.eval of a rule expression) are
  parameters of the engine, collected in `Adapter`.
* String literals drop the single quotes that the Python messages put around
  names, and container reprs inside messages are simplified; issue codes,
  levels, counts and example lists are modelled exactly.
-/

/-- A parsed YAML / Python value as handled by the engine. -/
inductive Yaml where
  | null : Yaml
  | bool : Bool → Yaml
  | int : Int → Yaml
  | num : Rat → Yaml
  | str : String → Yaml
  | list : List Yaml → Yaml
  | map : List (String × Yaml) → Yaml

/-- Python truthiness of a value (`bool(x)` / use as an `if` condition). -/
def Yaml.truthy : Yaml → Bool
  | .null => false
  | .bool b => b
  | .int n => n != 0
  | .num q => q != 0
  | .str s => s != ""
  | .list xs => !xs.isEmpty
  | .map kvs => !kvs.isEmpty

/-- Lookup in a parsed mapping (Python dict lookup; dict keys are unique,
first match wins). -/
def lookupKey : List (String × Yaml) → String → Option Yaml
  | [], _ => none
  | (k, v) :: rest, key => if k == key then some v else lookupKey rest key

/-- `spec or {}` — the normalisation the source applies to a column spec at
lines 155 and 181. -/
def specOr (sp : Yaml) : Yaml := if sp.truthy then sp else Yaml.map []

/-- `isinstance(pk, list) and all(isinstance(x, str) for x in pk)`. -/
def isStringList : Yaml → Bool
  | .list xs => xs.all (fun x => match x with | .str _ => true | _ => false)
  | _ => false

/-- The names of a list-of-strings value (only used after `isStringList`). -/
def stringListOf : Yaml → List String
  | .list xs => xs.filterMap (fun x => match x with | .str t => some t | _ => none)
  | _ => []

/-- `isinstance(x, list)`. -/
def isListY : Yaml → Bool
  | .list _ => true
  | _ => false

/-- Storage dtype of a pandas Series, already classified the way
`_normalize_dtype_name` classifies the string form of the dtype. -/
inductive Dtype where
  | int : Dtype
  | float : Dtype
  | object : Dtype
  | string : Dtype
  | datetime : Dtype
  | bool : Dtype
  | other : String → Dtype
deriving DecidableEq

/-- `_normalize_dtype_name` (source lines 97-113): collapse a pandas dtype to
a comparable string; object and string storage both count as "string". -/
def normalizeDtypeName : Dtype → String
  | .int => "int"
  | .float => "float"
  | .object => "string"
  | .string => "string"
  | .datetime => "datetime"
  | .bool => "bool"
  | .other s => s

/-- A pandas Series: its storage dtype and its cells.  A missing value (NaN,
None, NaT) is `Yaml.null`. -/
structure Series where
  dtype : Dtype
  values : List Yaml

/-- A pandas DataFrame: ordered named columns (all of equal length in any
table pandas can build). -/
structure Table where
  cols : List (String × Series)

def lookupCol : List (String × Series) → String → Option Series
  | [], _ => none
  | (n, s) :: rest, c => if n == c then some s else lookupCol rest c

/-- `df.columns` as an ordered name list. -/
def Table.columns (df : Table) : List String := df.cols.map Prod.fst

/-- `name in df.columns`. -/
def Table.hasCol (df : Table) (c : String) : Bool := (lookupCol df.cols c).isSome

/-- `df[col]` (only consulted for present columns; the default is unused). -/
def Table.getCol (df : Table) (c : String) : Series :=
  (lookupCol df.cols c).getD ⟨Dtype.object, []⟩

/-- Number of rows (length of any column; pandas keeps them equal). -/
def Table.nrows (df : Table) : Nat :=
  match df.cols with
  | [] => 0
  | (_, s) :: _ => s.values.length

/-- Row `i` of the table as a record, as produced by
`to_dict(orient="records")`. -/
def Table.rowRecord (df : Table) (i : Nat) : Yaml :=
  Yaml.map (df.cols.map (fun p => (p.1, p.2.values.getD i Yaml.null)))

/-- `df.loc[mask]` followed by `to_dict(orient="records")`. -/
def Table.selectRows (df : Table) (mask : List Bool) : List Yaml :=
  ((List.range df.nrows).filter (fun i => mask.getD i false)).map df.rowRecord

/-- `df.loc[mask, cols].to_dict(orient="records")`. -/
def Table.selectRowsCols (df : Table) (mask : List Bool) (names : List String) : List Yaml :=
  ((List.range df.nrows).filter (fun i => mask.getD i false)).map
    (fun i => Yaml.map (names.map (fun c => (c, (df.getCol c).values.getD i Yaml.null))))

/-- `pd.isna` on one cell. -/
def isna : Yaml → Bool
  | .null => true
  | _ => false

/-- Numeric view of a scalar, unifying bool/int/float the way Python / numpy
comparisons and equality do. -/
def toRatQ : Yaml → Option Rat
  | .bool b => some (if b then 1 else 0)
  | .int n => some (n : Rat)
  | .num q => some q
  | _ => none

/-- Scalar equality as used by `isin` and duplicate detection: numeric kinds
compare by value, strings by content; missing matches missing (pandas groups
missing values together in `duplicated`). -/
def cellEq (a b : Yaml) : Bool :=
  match toRatQ a, toRatQ b with
  | some x, some y => x == y
  | _, _ =>
    match a, b with
    | .null, .null => true
    | .str x, .str y => x == y
    | _, _ => false

def natOfDigits (cs : List Char) : Nat :=
  cs.foldl (fun n c => n * 10 + (c.toNat - 48)) 0

/-- Parse a decimal literal with optional sign and fraction, the shapes of
string that both `float(...)` and `pd.to_numeric` accept (scientific notation
and inf/nan spellings are not modelled; no claim exercises them). -/
def parseNumLit (t : String) : Option Rat :=
  let cs := t.trim.toList
  let signed : Rat × List Char :=
    match cs with
    | '-' :: rest => (-1, rest)
    | '+' :: rest => (1, rest)
    | _ => (1, cs)
  let intPart := signed.2.takeWhile Char.isDigit
  let rest := signed.2.dropWhile Char.isDigit
  match rest with
  | [] => if intPart.isEmpty then none else some (signed.1 * (natOfDigits intPart : Rat))
  | '.' :: frac =>
      if frac.all Char.isDigit && (!intPart.isEmpty || !frac.isEmpty) then
        some (signed.1 * ((natOfDigits intPart : Rat) +
          (natOfDigits frac : Rat) / ((10 : Rat) ^ frac.length)))
      else none
  | _ => none

/-- One cell under `pd.to_numeric(s, errors="coerce")`: missing and
uncoercible values become missing (`none`), numeric kinds keep their value. -/
def coerceNum : Yaml → Option Rat
  | .null => none
  | .bool b => some (if b then 1 else 0)
  | .int n => some (n : Rat)
  | .num q => some q
  | .str t => parseNumLit t
  | _ => none

/-- Python `float(x)` on a schema value; raises on non-numeric input. -/
def pyFloat : Yaml → Except String Rat
  | .int n => .ok (n : Rat)
  | .num q => .ok q
  | .bool b => .ok (if b then 1 else 0)
  | .str t =>
      match parseNumLit t with
      | some q => .ok q
      | none => .error "ValueError: could not convert string to float"
  | _ => .error "TypeError: float() argument must be a string or a real number"

def isHashableY : Yaml → Bool
  | .list _ => false
  | .map _ => false
  | _ => true

/-- Python `set(allowed)`: iterating a list keeps its elements, a string
yields its characters, a dict yields its keys; non-iterables and unhashable
elements raise.  Deduplication is omitted: only membership in the result is
ever used. -/
def pySet : Yaml → Except String (List Yaml)
  | .list xs =>
      if xs.all isHashableY then .ok xs else .error "TypeError: unhashable type"
  | .str t => .ok (t.toList.map (fun c => Yaml.str (String.singleton c)))
  | .map kvs => .ok (kvs.map (fun kv => Yaml.str kv.1))
  | _ => .error "TypeError: argument is not iterable"

/-- Repr of a float under `str(...)`; approximate (claims never inspect it). -/
def ratStr (q : Rat) : String :=
  if q.den == 1 then toString q.num ++ ".0" else toString q

/-- Python `str(x)` of a scalar; container reprs are placeholders (no claim
inspects them). -/
def pyStr : Yaml → String
  | .null => "None"
  | .bool b => if b then "True" else "False"
  | .int n => toString n
  | .num q => ratStr q
  | .str t => t
  | .list _ => "<list>"
  | .map _ => "<dict>"

/-- `_coerce_string_series` (source lines 116-118): keep missing values,
cast the rest to `str`. -/
def coerceStringValues (vs : List Yaml) : List Yaml :=
  vs.map (fun v => if isna v then v else Yaml.str (pyStr v))

/-- `xs[mask]` for an aligned boolean mask (row order preserved). -/
def maskFilter (mask : List Bool) (xs : List Yaml) : List Yaml :=
  (mask.zip xs).filterMap (fun p => if p.1 then some p.2 else none)

/-- One validation finding (source lines 65-72). -/
structure ValidationIssue where
  level : String
  code : String
  message : String
  column : Option String
  n_rows : Option Nat
  examples : Option (List Yaml)

/-- Result of `df.eval(expr, engine="python")`: it can raise, return a
scalar, or return a row-wise Series. -/
inductive EvalResult where
  | raised : String → EvalResult
  | scalar : Yaml → EvalResult
  | series : Series → EvalResult

/-- The external collaborators of the engine (the Table Adapter contract of
the spec): regex compilation/matching, datetime parsing, and row-wise
expression evaluation are not owned by the validation core. -/
structure Adapter where
  regexCompile : String → Option (String → Bool)
  dtParse : Yaml → Bool
  evalExpr : Table → String → EvalResult

/-- One cell under `series.astype(bool)`.  numpy casts a float NaN to `True`
(this is what defeats the later `fillna(False)`); `bool(None)` in an object
column is `False`; other scalars cast by truthiness. -/
def astypeBoolCell (dt : Dtype) (v : Yaml) : Yaml :=
  match dt, v with
  | .float, .null => Yaml.bool true
  | _, .null => Yaml.bool false
  | _, v => Yaml.bool v.truthy

/-- `series.astype(bool)`. -/
def Series.astypeBool (s : Series) : Series :=
  ⟨Dtype.bool, s.values.map (astypeBoolCell s.dtype)⟩

/-- `_safe_eval_expr` (source lines 121-135): raise on evaluation failure or
a non-Series result, cast a non-bool Series with `astype(bool)`. -/
def safeEvalExpr (A : Adapter) (df : Table) (e : String) : Except String Series :=
  match A.evalExpr df e with
  | .raised msg =>
      .error ("Failed to evaluate rule expr=" ++ e ++ ": " ++ msg)
  | .scalar _ =>
      .error ("Failed to evaluate rule expr=" ++ e ++
        ": Expression did not evaluate to a row-wise Series.")
  | .series s => if s.dtype = Dtype.bool then .ok s else .ok s.astypeBool

/-- `x.fillna(False)` on one cell. -/
def fillnaFalseCell (v : Yaml) : Yaml :=
  match v with
  | .null => Yaml.bool false
  | v => v

/-- `~x` on one cell of the (boolean) outcome series. -/
def invCell (v : Yaml) : Bool :=
  match v with
  | .bool b => !b
  | v => !v.truthy

/-- Issue of check 1 when the schema itself is unusable. -/
def noColumnsIssue : ValidationIssue :=
  ⟨"ERROR", "SCHEMA_NO_COLUMNS",
   "Schema must define a non-empty columns mapping.", none, none, none⟩

/-- Issue of check 1 for absent required columns (source lines 157-164). -/
def missingRequiredIssue (missing : List String) : ValidationIssue :=
  ⟨"ERROR", "MISSING_REQUIRED_COLUMNS",
   "Missing required columns: " ++ toString missing,
   none, some missing.length, some (missing.map Yaml.str)⟩

/-- Issue of check 2 (source lines 169-177). -/
def unexpectedColumnsIssue (unexpected : List String) : ValidationIssue :=
  ⟨"WARN", "UNEXPECTED_COLUMNS",
   "Unexpected columns found (schema disallows extras): " ++ toString unexpected,
   none, some unexpected.length, some (unexpected.map Yaml.str)⟩

/-- `required_cols` needs `(spec or {}).get("required", False)` per column;
a truthy non-dict spec makes the attribute lookup raise. -/
def requiredFlag (sp : Yaml) : Except String Bool :=
  match specOr sp with
  | .map kvs => .ok ((lookupKey kvs "required").getD (Yaml.bool false)).truthy
  | _ => .error "AttributeError: spec has no attribute get"

/-- `[c for c, spec in columns_spec.items() if (spec or {}).get("required", False)]`
(source line 155). -/
def requiredCols : List (String × Yaml) → Except String (List String)
  | [] => .ok []
  | (c, sp) :: rest =>
    match requiredFlag sp with
    | .error e => .error e
    | .ok b =>
      match requiredCols rest with
      | .error e => .error e
      | .ok r => .ok (if b then c :: r else r)

/-- Check 1 body (source lines 156-164). -/
def missingSection (df : Table) (required : List String) : List ValidationIssue :=
  let missing := required.filter (fun c => !(df.hasCol c))
  if missing.isEmpty then [] else [missingRequiredIssue missing]

/-- Check 2 (source lines 166-177); `allow_extra` is
`bool(schema.get("allow_extra_columns", True))`. -/
def extraSection (df : Table) (allow_extra : Bool) (cmap : List (String × Yaml)) :
    List ValidationIssue :=
  if !allow_extra then
    let unexpected := df.columns.filter (fun c => (lookupKey cmap c).isNone)
    if unexpected.isEmpty then [] else [unexpectedColumnsIssue unexpected]
  else []

/-- Check 3a nullability (source lines 189-201). -/
def nullCheck (s : Series) (col : String) (nullable : Bool) : List ValidationIssue :=
  if !nullable then
    let n_null := s.values.countP isna
    if n_null > 0 then
      [⟨"ERROR", "NULLS_NOT_ALLOWED",
        "Column " ++ col ++ " contains " ++ toString n_null ++ " nulls but nullable=false.",
        some col, some n_null, some ((s.values.filter isna).take 5)⟩]
    else []
  else []

/-- `s.dropna().apply(float.is_integer).all()` on a float column: every
non-null value is integral. -/
def isIntegerCell : Yaml → Bool
  | .num q => q.den == 1
  | .int _ => true
  | _ => false

def dtypeMismatchIssue (col : String) (detail : String) : ValidationIssue :=
  ⟨"ERROR", "DTYPE_MISMATCH", "Column " ++ col ++ " " ++ detail, some col, none, none⟩

/-- Check 3b dtype compatibility (source lines 203-261). -/
def dtypeCheck (A : Adapter) (s : Series) (col : String) (dtype_expected : Yaml) :
    List ValidationIssue :=
  if dtype_expected.truthy then
    let de := ((pyStr dtype_expected).toLower).trim
    let actual := normalizeDtypeName s.dtype
    if de == "string" then
      if !(actual == "string" || actual == "object") then
        [dtypeMismatchIssue col "expected dtype=string but got another dtype."]
      else []
    else if de == "int" || de == "integer" then
      if actual != "int" then
        if actual == "float" && (s.values.filter (fun v => !(isna v))).all isIntegerCell then
          [⟨"WARN", "DTYPE_INTLIKE_FLOAT",
            "Column " ++ col ++ " is float but appears int-like; consider casting to int.",
            some col, none, none⟩]
        else [dtypeMismatchIssue col "expected dtype=int but got another dtype."]
      else []
    else if de == "float" then
      if !(actual == "float" || actual == "int") then
        [dtypeMismatchIssue col "expected dtype=float but got another dtype."]
      else []
    else if de == "bool" then
      if actual != "bool" then
        [dtypeMismatchIssue col "expected dtype=bool but got another dtype."]
      else []
    else if de == "datetime" then
      if actual != "datetime" then
        if s.values.countP (fun v => isna v || !(A.dtParse v)) != s.values.countP isna then
          [dtypeMismatchIssue col "expected datetime; coercion failed for some values."]
        else []
      else []
    else []
  else []

def minViolationIssue (col : String) (mn : Rat) (bad : List Rat) : ValidationIssue :=
  ⟨"ERROR", "MIN_VIOLATION",
   "Column " ++ col ++ " has " ++ toString bad.length ++ " values below min " ++ toString mn ++ ".",
   some col, some bad.length, some ((bad.take 5).map Yaml.num)⟩

def maxViolationIssue (col : String) (mx : Rat) (bad : List Rat) : ValidationIssue :=
  ⟨"ERROR", "MAX_VIOLATION",
   "Column " ++ col ++ " has " ++ toString bad.length ++ " values above max " ++ toString mx ++ ".",
   some col, some bad.length, some ((bad.take 5).map Yaml.num)⟩

/-- The `min` half of check 3c (source lines 269-280); `float(spec["min"])`
can raise. -/
def minPart (valid : List Rat) (col : String) (kvs : List (String × Yaml)) :
    Except String (List ValidationIssue) :=
  match lookupKey kvs "min" with
  | none => .ok []
  | some y =>
    match pyFloat y with
    | .error e => .error e
    | .ok mn =>
      let bad := valid.filter (fun q => decide (q < mn))
      .ok (if bad.length > 0 then [minViolationIssue col mn bad] else [])

/-- The `max` half of check 3c (source lines 281-292). -/
def maxPart (valid : List Rat) (col : String) (kvs : List (String × Yaml)) :
    Except String (List ValidationIssue) :=
  match lookupKey kvs "max" with
  | none => .ok []
  | some y =>
    match pyFloat y with
    | .error e => .error e
    | .ok mx =>
      let bad := valid.filter (fun q => decide (mx < q))
      .ok (if bad.length > 0 then [maxViolationIssue col mx bad] else [])

/-- Check 3c range (source lines 263-292): coerce to numeric, drop the
missing, check each bound independently. -/
def rangeCheck (s : Series) (col : String) (kvs : List (String × Yaml)) :
    Except String (List ValidationIssue) :=
  if (lookupKey kvs "min").isSome || (lookupKey kvs "max").isSome then
    let valid := s.values.filterMap coerceNum
    match minPart valid col kvs with
    | .error e => .error e
    | .ok iMin =>
      match maxPart valid col kvs with
      | .error e => .error e
      | .ok iMax => .ok (iMin ++ iMax)
  else .ok []

/-- `spec.get("dtype", "").lower() == "string"` (source line 298); unlike the
3b branch this applies `.lower()` without `str(...)`, so a present non-string
dtype value raises here. -/
def dtypeIsStringDecl (kvs : List (String × Yaml)) : Except String Bool :=
  match (lookupKey kvs "dtype").getD (Yaml.str "") with
  | .str t => .ok (t.toLower == "string")
  | _ => .error "AttributeError: value has no attribute lower"

/-- Check 3d allowed set (source lines 294-310). -/
def allowedCheck (s : Series) (col : String) (kvs : List (String × Yaml)) :
    Except String (List ValidationIssue) :=
  match lookupKey kvs "allowed" with
  | none => .ok []
  | some Yaml.null => .ok []
  | some allowedY =>
    match pySet allowedY with
    | .error e => .error e
    | .ok elems =>
      match dtypeIsStringDecl kvs with
      | .error e => .error e
      | .ok useStr =>
        let ss := if useStr then coerceStringValues s.values else s.values
        let badMask := ss.map (fun v => !(isna v) && !(elems.any (fun a => cellEq v a)))
        let n_bad := badMask.countP id
        .ok (if n_bad > 0 then
          [⟨"ERROR", "ALLOWED_SET_VIOLATION",
            "Column " ++ col ++ " has " ++ toString n_bad ++ " values not in allowed set.",
            some col, some n_bad, some ((maskFilter badMask s.values).take 5)⟩]
        else [])

/-- Check 3e regex (source lines 312-327): string-coerce, test non-missing
values against the compiled pattern; an unusable pattern raises. -/
def regexCheck (A : Adapter) (s : Series) (col : String) (kvs : List (String × Yaml)) :
    Except String (List ValidationIssue) :=
  let pat := (lookupKey kvs "regex").getD Yaml.null
  if pat.truthy then
    match pat with
    | .str p =>
      match A.regexCompile p with
      | none => .error "re.error: invalid pattern"
      | some f =>
        let ss := coerceStringValues s.values
        let badMask := ss.map (fun v => match v with | .str t => !(f t) | _ => false)
        let n_bad := badMask.countP id
        .ok (if n_bad > 0 then
          [⟨"ERROR", "REGEX_VIOLATION",
            "Column " ++ col ++ " has " ++ toString n_bad ++ " values not matching regex " ++ p,
            some col, some n_bad, some ((maskFilter badMask s.values).take 5)⟩]
        else [])
    | _ => .error "TypeError: pattern must be a string"
  else .ok []

/-- Check 3f uniqueness (source lines 329-342): every occurrence of a
duplicated non-missing value is flagged. -/
def uniqueCheck (s : Series) (col : String) (kvs : List (String × Yaml)) :
    List ValidationIssue :=
  if ((lookupKey kvs "unique").getD (Yaml.bool false)).truthy then
    let dupMask := s.values.map
      (fun v => !(isna v) && decide (2 ≤ s.values.countP (fun w => cellEq w v)))
    let n_dup := dupMask.countP id
    if n_dup > 0 then
      [⟨"ERROR", "UNIQUE_VIOLATION",
        "Column " ++ col ++ " has " ++ toString n_dup ++ " duplicated entries but unique=true.",
        some col, some n_dup, some ((maskFilter dupMask s.values).take 5)⟩]
    else []
  else []

/-- The per-column checks 3a-3f for a present column whose normalised spec is
a mapping, in source order. -/
def checkColumnPresent (A : Adapter) (df : Table) (col : String)
    (kvs : List (String × Yaml)) : Except String (List ValidationIssue) :=
  let s := df.getCol col
  let dtype_expected := (lookupKey kvs "dtype").getD Yaml.null
  let nullable := ((lookupKey kvs "nullable").getD (Yaml.bool true)).truthy
  let i1 := nullCheck s col nullable
  let i2 := dtypeCheck A s col dtype_expected
  match rangeCheck s col kvs with
  | .error e => .error e
  | .ok i3 =>
    match allowedCheck s col kvs with
    | .error e => .error e
    | .ok i4 =>
      match regexCheck A s col kvs with
      | .error e => .error e
      | .ok i5 =>
        let i6 := uniqueCheck s col kvs
        .ok (i1 ++ i2 ++ i3 ++ i4 ++ i5 ++ i6)

/-- One iteration of the column loop (source lines 180-342): normalise the
spec, skip columns absent from the table, otherwise run checks 3a-3f. -/
def checkColumn (A : Adapter) (df : Table) (col : String) (sp0 : Yaml) :
    Except String (List ValidationIssue) :=
  if !(df.hasCol col) then .ok []
  else
    match specOr sp0 with
    | .map kvs => checkColumnPresent A df col kvs
    | _ => .error "AttributeError: spec has no attribute get"

/-- The whole column loop, accumulating issues in schema order. -/
def columnsCheck (A : Adapter) (df : Table) : List (String × Yaml) →
    Except String (List ValidationIssue)
  | [] => .ok []
  | (c, sp) :: rest =>
    match checkColumn A df c sp with
    | .error e => .error e
    | .ok here =>
      match columnsCheck A df rest with
      | .error e => .error e
      | .ok there => .ok (here ++ there)

def pkInvalidIssue : ValidationIssue :=
  ⟨"ERROR", "SCHEMA_PRIMARY_KEY_INVALID",
   "Schema primary_key must be a list of column names.", none, none, none⟩

def tupleEq (a b : List Yaml) : Bool :=
  a.length == b.length && (a.zip b).all (fun p => cellEq p.1 p.2)

/-- `df.duplicated(subset=names, keep=False)`. -/
def Table.keyTuple (df : Table) (names : List String) (i : Nat) : List Yaml :=
  names.map (fun c => (df.getCol c).values.getD i Yaml.null)

def Table.duplicatedMask (df : Table) (names : List String) : List Bool :=
  (List.range df.nrows).map (fun i =>
    decide (2 ≤ (List.range df.nrows).countP
      (fun j => tupleEq (df.keyTuple names j) (df.keyTuple names i))))

/-- Check 4 primary key (source lines 344-373); `pk` is
`schema.get("primary_key", None)` and a falsy value skips the whole check. -/
def pkCheck (df : Table) (pk : Yaml) : List ValidationIssue :=
  if pk.truthy then
    if !(isStringList pk) then [pkInvalidIssue]
    else
      let names := stringListOf pk
      let missing_pk := names.filter (fun c => !(df.hasCol c))
      if !missing_pk.isEmpty then
        [⟨"ERROR", "PRIMARY_KEY_MISSING_COLUMNS",
          "Primary key columns missing from table: " ++ toString missing_pk,
          none, none, some (missing_pk.map Yaml.str)⟩]
      else
        let dup := df.duplicatedMask names
        let n_dup := dup.countP id
        if n_dup > 0 then
          [⟨"ERROR", "PRIMARY_KEY_NOT_UNIQUE",
            "Primary key is not unique; " ++ toString n_dup ++ " rows are duplicates.",
            none, some n_dup, some ((df.selectRowsCols dup names).take 5)⟩]
        else []
  else []

def schemaRulesInvalidIssue : ValidationIssue :=
  ⟨"ERROR", "SCHEMA_RULES_INVALID", "Schema rules must be a list.", none, none, none⟩

/-- The body of the rule loop for one declared rule (source lines 385-420). -/
def ruleIssuesFor (A : Adapter) (df : Table) (r : Yaml) : List ValidationIssue :=
  match r with
  | .map kvs =>
    let name := (lookupKey kvs "name").getD (Yaml.str "unnamed_rule")
    let e := (lookupKey kvs "expr").getD Yaml.null
    if !e.truthy then
      [⟨"ERROR", "SCHEMA_RULE_MISSING_EXPR",
        "Rule " ++ pyStr name ++ " missing expr string.", none, none, none⟩]
    else
      match e with
      | .str ex =>
        (match safeEvalExpr A df ex with
         | .error msg =>
             [⟨"ERROR", "TABLE_RULE_EVAL_ERROR", msg, none, none, none⟩]
         | .ok ok =>
             let okf := ok.values.map fillnaFalseCell
             let bad := okf.map invCell
             let n_bad := bad.countP id
             if n_bad > 0 then
               [⟨"ERROR", "TABLE_RULE_VIOLATION",
                 "Rule " ++ pyStr name ++ " failed for " ++ toString n_bad ++ " rows. expr=" ++ ex,
                 none, some n_bad, some ((df.selectRows bad).take 3)⟩]
             else [])
      | _ =>
        [⟨"ERROR", "SCHEMA_RULE_MISSING_EXPR",
          "Rule " ++ pyStr name ++ " missing expr string.", none, none, none⟩]
  | _ =>
    [⟨"ERROR", "SCHEMA_RULE_INVALID", "Rule must be dict.", none, none, none⟩]

def ruleLoop (A : Adapter) (df : Table) : List Yaml → List ValidationIssue
  | [] => []
  | r :: rest => ruleIssuesFor A df r ++ ruleLoop A df rest

/-- Check 5 table rules (source lines 375-420); `rules0` is
`schema.get("rules", [])`, re-normalised by `or []` before the truthiness
test. -/
def rulesCheck (A : Adapter) (df : Table) (rules0 : Yaml) : List ValidationIssue :=
  let rules := if rules0.truthy then rules0 else Yaml.list []
  if rules.truthy then
    match rules with
    | .list rs => ruleLoop A df rs
    | _ => [schemaRulesInvalidIssue]
  else []

/-- The parsed schema projected to the keys `validate` consults (top level is
guaranteed to be a mapping by `_load_yaml`); `none` is an absent key. -/
structure Schema where
  columns : Option Yaml
  allow_extra_columns : Option Yaml
  primary_key : Option Yaml
  rules : Option Yaml

/-- `columns_spec = schema.get("columns", {}) or {}` (source line 145). -/
def columnsSpecOf (s : Schema) : Yaml :=
  let cs0 := s.columns.getD (Yaml.map [])
  if cs0.truthy then cs0 else Yaml.map []

/-- Everything `validate` does after the schema-structure gate, for a
non-empty columns mapping. -/
def validateBody (A : Adapter) (df : Table) (allow_extra : Bool) (pk rules0 : Yaml)
    (cmap : List (String × Yaml)) : Except String (Bool × List ValidationIssue) :=
  match requiredCols cmap with
  | .error e => .error e
  | .ok required =>
    match columnsCheck A df cmap with
    | .error e => .error e
    | .ok colIss =>
      let issues := missingSection df required ++ extraSection df allow_extra cmap ++
        colIss ++ pkCheck df pk ++ rulesCheck A df rules0
      .ok (!(issues.any (fun i => i.level == "ERROR")), issues)

/-- `validate(df, schema)` (source lines 142-423). -/
def validate (A : Adapter) (df : Table) (s : Schema) :
    Except String (Bool × List ValidationIssue) :=
  match columnsSpecOf s with
  | .map (k :: rest) =>
      validateBody A df ((s.allow_extra_columns.getD (Yaml.bool true)).truthy)
        (s.primary_key.getD Yaml.null) (s.rules.getD (Yaml.list [])) (k :: rest)
  | _ => .ok (false, [noColumnsIssue])

/-- The schema shape rejected by check 0: a `columns` entry that is missing,
not a mapping, or an empty mapping (any falsy value normalises to the empty
mapping first). -/
def columnsAbsentOrEmpty (s : Schema) : Bool :=
  match s.columns with
  | some (Yaml.map (_ :: _)) => false
  | _ => true

/-- The per-column condition of claim C4 as the claim states it: the spec is
a mapping (or missing) with truthy `nullable` and none of min, max, allowed,
regex, unique; `dtype` is NOT restricted. -/
def colSpecRelaxed (sp : Yaml) : Bool :=
  match specOr sp with
  | .map kvs =>
      ((lookupKey kvs "nullable").getD (Yaml.bool true)).truthy &&
      (lookupKey kvs "min").isNone && (lookupKey kvs "max").isNone &&
      (match lookupKey kvs "allowed" with
       | none => true | some Yaml.null => true | some _ => false) &&
      !(((lookupKey kvs "regex").getD Yaml.null).truthy) &&
      !(((lookupKey kvs "unique").getD (Yaml.bool false)).truthy)
  | _ => false

/-- The amended per-column condition: additionally no (truthy) `dtype`, so
that no per-column check can fire at all. -/
def colSpecInert (sp : Yaml) : Bool :=
  match specOr sp with
  | .map kvs =>
      ((lookupKey kvs "nullable").getD (Yaml.bool true)).truthy &&
      !(((lookupKey kvs "dtype").getD Yaml.null).truthy) &&
      (lookupKey kvs "min").isNone && (lookupKey kvs "max").isNone &&
      (match lookupKey kvs "allowed" with
       | none => true | some Yaml.null => true | some _ => false) &&
      !(((lookupKey kvs "regex").getD Yaml.null).truthy) &&
      !(((lookupKey kvs "unique").getD (Yaml.bool false)).truthy)
  | _ => false

/- Concrete inputs used by witnesses and counterexamples. -/

/-- An adapter with no regex support, no datetime parsing, and an eval that
always raises; witnesses that never reach those collaborators use it. -/
def adA : Adapter := ⟨fun _ => none, fun _ => false, fun _ _ => .raised "e"⟩

def tEmpty : Table := ⟨[]⟩

def s1w : Schema := ⟨none, none, none, none⟩

def s2w : Schema :=
  ⟨some (Yaml.map [("a", Yaml.map [("required", Yaml.bool true)])]), none, none, none⟩

/-- Adapter for the C3 failing input: evaluating the rule expression
"Duration" returns the Duration column itself, a float Series whose second
row is NaN — exactly what `df.eval` does for that expression. -/
def adC3 : Adapter :=
  ⟨fun _ => none, fun _ => false,
   fun _ e => if e == "Duration" then .series ⟨Dtype.float, [Yaml.num 1, Yaml.null]⟩
              else .raised "x"⟩

def dfC3 : Table := ⟨[("Duration", ⟨Dtype.float, [Yaml.num 1, Yaml.null]⟩)]⟩

def sC3 : Schema :=
  ⟨some (Yaml.map [("Duration", Yaml.map [])]), none, none,
   some (Yaml.list [Yaml.map [("name", Yaml.str "d"), ("expr", Yaml.str "Duration")]])⟩

def df5 : Table := ⟨[("x", ⟨Dtype.int, [Yaml.int (-1), Yaml.int 0, Yaml.int 5]⟩)]⟩

def s5w : Schema := ⟨some (Yaml.map [("x", Yaml.map [("min", Yaml.int 0)])]), none, none, none⟩

def df5b : Table :=
  ⟨[("y", ⟨Dtype.int, [Yaml.int (-1), Yaml.int 0, Yaml.int 5, Yaml.int 99]⟩)]⟩

def s5b : Schema :=
  ⟨some (Yaml.map [("y", Yaml.map [("min", Yaml.int 0), ("max", Yaml.int 10)])]),
   none, none, none⟩

def s4cex : Schema :=
  ⟨some (Yaml.map [("a", Yaml.map [("nullable", Yaml.bool true)])]), none,
   some (Yaml.int 5), none⟩

def s4w : Schema :=
  ⟨some (Yaml.map [("a", Yaml.map [("nullable", Yaml.bool true)])]), none, none, none⟩

def s6cex : Schema := ⟨some (Yaml.map [("a", Yaml.map [])]), none, some (Yaml.list []), none⟩

def s6w : Schema := ⟨some (Yaml.map [("a", Yaml.map [])]), none, some (Yaml.str "id"), none⟩

/-- Adapter for the C7 witness: expression "boom" raises, any other
expression evaluates to an all-false one-row boolean Series. -/
def adC7 : Adapter :=
  ⟨fun _ => none, fun _ => false,
   fun _ e => if e == "boom" then .raised "kaput"
              else .series ⟨Dtype.bool, [Yaml.bool false]⟩⟩

def dfC7 : Table := ⟨[("x", ⟨Dtype.int, [Yaml.int 1]⟩)]⟩

def r71 : Yaml := Yaml.map [("name", Yaml.str "r1"), ("expr", Yaml.str "boom")]

def r72 : Yaml := Yaml.map [("expr", Yaml.str "ok")]

def s7w : Schema := ⟨some (Yaml.map [("x", Yaml.map [])]), none, none, some (Yaml.list [r71, r72])⟩

def s9w : Schema := ⟨some (Yaml.map [("a", Yaml.map [])]), none, none, some (Yaml.int 7)⟩

def s9wb : Schema := ⟨some (Yaml.map [("a", Yaml.map [])]), none, none, none⟩

def s10a : Schema := ⟨some (Yaml.map [("a", Yaml.null)]), none, none, none⟩

def s10b : Schema := ⟨some (Yaml.map [("a", Yaml.map [])]), none, none, none⟩

/-- The codes a per-column check (3a-3f) can emit. -/
def perColumnCodes : List String :=
  ["NULLS_NOT_ALLOWED", "DTYPE_MISMATCH", "DTYPE_INTLIKE_FLOAT", "MIN_VIOLATION",
   "MAX_VIOLATION", "ALLOWED_SET_VIOLATION", "REGEX_VIOLATION", "UNIQUE_VIOLATION"]

/-- The codes the primary-key check can emit. -/
def pkCodes : List String :=
  ["SCHEMA_PRIMARY_KEY_INVALID", "PRIMARY_KEY_MISSING_COLUMNS", "PRIMARY_KEY_NOT_UNIQUE"]

/-- The codes one iteration of the rule loop can emit. -/
def ruleCodes : List String :=
  ["SCHEMA_RULE_INVALID", "SCHEMA_RULE_MISSING_EXPR", "TABLE_RULE_EVAL_ERROR",
   "TABLE_RULE_VIOLATION"]

/- Helper lemmas. -/

theorem isEmpty_append_cons {α : Type} (pre post : List α) (x : α) :
    (pre ++ x :: post).isEmpty = false := by
  cases pre <;> rfl

/-- The schema-structure gate: when `columns_spec` is not a non-empty
mapping, `validate` stops with the single SCHEMA_NO_COLUMNS issue. -/
theorem validate_of_not_cons (A : Adapter) (df : Table) (s : Schema)
    (h : ∀ k rest, columnsSpecOf s ≠ Yaml.map (k :: rest)) :
    validate A df s = .ok (false, [noColumnsIssue]) := by
  unfold validate
  split
  · next k rest heq => exact absurd heq (h k rest)
  · rfl

/-- Past the gate, `validate` is `validateBody` on the columns mapping. -/
theorem validate_eq_body (A : Adapter) (df : Table) (s : Schema)
    (cmap : List (String × Yaml)) (hcs : columnsSpecOf s = Yaml.map cmap)
    (hne : cmap ≠ []) :
    validate A df s =
      validateBody A df ((s.allow_extra_columns.getD (Yaml.bool true)).truthy)
        (s.primary_key.getD Yaml.null) (s.rules.getD (Yaml.list [])) cmap := by
  cases cmap with
  | nil => exact absurd rfl hne
  | cons k rest =>
    unfold validate
    rw [hcs]

theorem columnsSpecOf_eq (s : Schema) (cmap : List (String × Yaml))
    (h : s.columns = some (Yaml.map cmap)) (hne : cmap.isEmpty = false) :
    columnsSpecOf s = Yaml.map cmap := by
  unfold columnsSpecOf
  rw [h]
  simp [Yaml.truthy, hne]

/- Congruence of the engine under replacing one column spec `None` by `{}`
(both normalise through `spec or {}`). -/

theorem lookupKey_congr (c : String) (post : List (String × Yaml)) (k : String) :
    ∀ pre, (lookupKey (pre ++ (c, Yaml.null) :: post) k).isNone =
      (lookupKey (pre ++ (c, Yaml.map []) :: post) k).isNone
  | [] => by
      cases h : (c == k) <;> simp [lookupKey, h]
  | p :: pre => by
      obtain ⟨a, b⟩ := p
      cases h : (a == k) <;> simp [lookupKey, h, lookupKey_congr c post k pre]

theorem requiredCols_congr (c : String) (post : List (String × Yaml)) :
    ∀ pre, requiredCols (pre ++ (c, Yaml.null) :: post) =
      requiredCols (pre ++ (c, Yaml.map []) :: post)
  | [] => rfl
  | p :: pre => by
      obtain ⟨a, b⟩ := p
      simp only [List.cons_append, requiredCols, List.append_eq,
        requiredCols_congr c post pre]

theorem columnsCheck_congr (A : Adapter) (df : Table) (c : String)
    (post : List (String × Yaml)) :
    ∀ pre, columnsCheck A df (pre ++ (c, Yaml.null) :: post) =
      columnsCheck A df (pre ++ (c, Yaml.map []) :: post)
  | [] => rfl
  | p :: pre => by
      obtain ⟨a, b⟩ := p
      simp only [List.cons_append, columnsCheck, List.append_eq,
        columnsCheck_congr A df c post pre]

theorem extraSection_congr (df : Table) (ae : Bool) (c : String)
    (pre post : List (String × Yaml)) :
    extraSection df ae (pre ++ (c, Yaml.null) :: post) =
      extraSection df ae (pre ++ (c, Yaml.map []) :: post) := by
  unfold extraSection
  simp only [lookupKey_congr c post _ pre]

theorem validateBody_congr (A : Adapter) (df : Table) (ae : Bool) (pk ru : Yaml)
    (c : String) (pre post : List (String × Yaml)) :
    validateBody A df ae pk ru (pre ++ (c, Yaml.null) :: post) =
      validateBody A df ae pk ru (pre ++ (c, Yaml.map []) :: post) := by
  unfold validateBody
  simp only [requiredCols_congr c post pre, columnsCheck_congr A df c post pre,
    extraSection_congr df ae c pre post]

/- Claim theorems. -/

/-- C1: for every schema whose columns entry is missing, not a mapping, or an
empty mapping, validate returns the invalid verdict with exactly the one
ERROR issue SCHEMA_NO_COLUMNS, and no other check contributes any issue. -/
theorem C1_no_columns_halts (A : Adapter) (df : Table) (s : Schema)
    (h : columnsAbsentOrEmpty s = true) :
    validate A df s = .ok (false, [noColumnsIssue]) := by
  apply validate_of_not_cons
  intro k rest hc
  obtain ⟨c, ae, pk, ru⟩ := s
  cases c with
  | none => simp [columnsSpecOf, Yaml.truthy] at hc
  | some y =>
    cases y with
    | map kvs =>
      cases kvs with
      | nil => simp [columnsSpecOf, Yaml.truthy] at hc
      | cons a l => simp [columnsAbsentOrEmpty] at h
    | null => simp [columnsSpecOf, Yaml.truthy] at hc
    | bool b => cases b <;> simp [columnsSpecOf, Yaml.truthy] at hc
    | int n =>
      simp only [columnsSpecOf, Option.getD_some] at hc
      split at hc <;> simp at hc
    | num q =>
      simp only [columnsSpecOf, Option.getD_some] at hc
      split at hc <;> simp at hc
    | str t =>
      simp only [columnsSpecOf, Option.getD_some] at hc
      split at hc <;> simp at hc
    | list xs =>
      simp only [columnsSpecOf, Option.getD_some] at hc
      split at hc <;> simp at hc

theorem C1_no_columns_halts_witness :
    validate adA tEmpty s1w = .ok (false, [noColumnsIssue]) :=
  C1_no_columns_halts adA tEmpty s1w rfl

/-- C3 (code behaviour at the failing input): the table has a float column
Duration = [1.0, NaN]; the declared rule evaluates to that column, so the
second row's outcome is missing.  `_safe_eval_expr` casts the Series with
`astype(bool)`, which turns the NaN into True, so the subsequent
`~ok.fillna(False)` counts the missing-outcome row as a PASS: validate
returns VALID with no TABLE_RULE_VIOLATION — against the fail-closed claim
(and against the intent of the dead `fillna(False)`). -/
theorem C3_missing_outcome_counts_as_pass :
    adC3.evalExpr dfC3 "Duration" = .series ⟨Dtype.float, [Yaml.num 1, Yaml.null]⟩ ∧
    safeEvalExpr adC3 dfC3 "Duration" = .ok ⟨Dtype.bool, [Yaml.bool true, Yaml.bool true]⟩ ∧
    validate adC3 dfC3 sC3 = .ok (true, []) :=
  ⟨rfl, rfl, rfl⟩

/-- C4 (counterexample): a schema whose single column spec satisfies the
claim's per-column condition (nullable=true, none of min/max/allowed/regex/
unique) and whose required columns are all present, yet validate returns
INVALID with one issue because the schema also carries primary_key = 5. -/
theorem C4_counterexample :
    (∀ p ∈ [("a", Yaml.map [("nullable", Yaml.bool true)])], colSpecRelaxed p.2 = true) ∧
    requiredCols [("a", Yaml.map [("nullable", Yaml.bool true)])] = .ok [] ∧
    validate adA tEmpty s4cex = .ok (false, [pkInvalidIssue]) ∧
    ∀ iss, validate adA tEmpty s4cex ≠ Except.ok (true, iss) := by
  refine ⟨?_, rfl, rfl, ?_⟩
  · intro p hp
    simp only [List.mem_singleton] at hp
    subst hp
    rfl
  · intro iss h
    rw [show validate adA tEmpty s4cex = Except.ok (false, [pkInvalidIssue]) from rfl] at h
    simp at h

/-- C6 (counterexample): a schema with primary_key present and equal to the
empty sequence; the claim demands SCHEMA_PRIMARY_KEY_INVALID, but `if pk:`
treats the empty list as absent and validate reports VALID with no issue. -/
theorem C6_counterexample :
    s6cex.primary_key = some (Yaml.list []) ∧
    validate adA tEmpty s6cex = .ok (true, []) :=
  ⟨rfl, rfl⟩

/-- C8: validate is a pure function of the (adapter, table, schema) triple —
the source computes every derived series (coerced numerics, strings,
datetimes) into fresh objects and never writes into the table — so two runs
on the same pair return the same verdict and the identical ordered issue
list. -/
theorem C8_two_runs_agree (A : Adapter) (df : Table) (s : Schema)
    (r1 r2 : Except String (Bool × List ValidationIssue))
    (h1 : validate A df s = r1) (h2 : validate A df s = r2) : r1 = r2 := by
  rw [← h1, ← h2]

theorem C8_two_runs_agree_witness :
    validate adA df5 s5w = Except.ok (false, [minViolationIssue "x" 0 [-1]]) :=
  C8_two_runs_agree adA df5 s5w (validate adA df5 s5w)
    (Except.ok (false, [minViolationIssue "x" 0 [-1]])) rfl rfl

/-- C10: a schema column whose spec is None validates exactly like the same
schema with that spec replaced by the empty mapping (both pass through
`spec or {}`), so the column is treated as required=false, nullable=true,
with no constraints, and validation does not fail on the None spec. -/
theorem C10_null_spec_like_empty (A : Adapter) (df : Table) (s1 s2 : Schema)
    (pre post : List (String × Yaml)) (c : String)
    (h1 : s1.columns = some (Yaml.map (pre ++ (c, Yaml.null) :: post)))
    (h2 : s2.columns = some (Yaml.map (pre ++ (c, Yaml.map []) :: post)))
    (hae : s1.allow_extra_columns = s2.allow_extra_columns)
    (hpk : s1.primary_key = s2.primary_key)
    (hru : s1.rules = s2.rules) :
    validate A df s1 = validate A df s2 := by
  rw [validate_eq_body A df s1 (pre ++ (c, Yaml.null) :: post)
    (columnsSpecOf_eq s1 _ h1 (isEmpty_append_cons _ _ _)) (by simp)]
  rw [validate_eq_body A df s2 (pre ++ (c, Yaml.map []) :: post)
    (columnsSpecOf_eq s2 _ h2 (isEmpty_append_cons _ _ _)) (by simp)]
  rw [hae, hpk, hru]
  exact validateBody_congr A df _ _ _ c pre post

theorem C10_null_spec_like_empty_witness :
    validate adA tEmpty s10a = validate adA tEmpty s10b :=
  C10_null_spec_like_empty adA tEmpty s10a s10b [] [] "a" rfl rfl rfl rfl rfl

/- Classification of the issues each check section can produce. -/

theorem nullCheck_mem (s : Series) (col : String) (nb : Bool) :
    ∀ i ∈ nullCheck s col nb, i.column = some col ∧ i.code = "NULLS_NOT_ALLOWED" := by
  intro i hi
  simp only [nullCheck] at hi
  split at hi
  · split at hi
    · simp only [List.mem_singleton] at hi
      subst hi
      exact ⟨rfl, rfl⟩
    · simp at hi
  · simp at hi

theorem dtypeCheck_mem (A : Adapter) (s : Series) (col : String) (d : Yaml) :
    ∀ i ∈ dtypeCheck A s col d, i.column = some col ∧
      (i.code = "DTYPE_MISMATCH" ∨ i.code = "DTYPE_INTLIKE_FLOAT") := by
  intro i hi
  simp only [dtypeCheck, dtypeMismatchIssue] at hi
  repeat' split at hi
  all_goals simp_all

theorem minPart_ok_mem (valid : List Rat) (col : String) (kvs : List (String × Yaml))
    (l : List ValidationIssue) (h : minPart valid col kvs = .ok l) :
    ∀ i ∈ l, i.column = some col ∧ i.code = "MIN_VIOLATION" := by
  intro i hi
  simp only [minPart] at h
  split at h
  · injection h with h2
    subst h2
    cases hi
  · split at h
    · simp at h
    · injection h with h2
      subst h2
      split at hi
      · simp only [List.mem_singleton] at hi
        subst hi
        exact ⟨rfl, rfl⟩
      · cases hi

theorem maxPart_ok_mem (valid : List Rat) (col : String) (kvs : List (String × Yaml))
    (l : List ValidationIssue) (h : maxPart valid col kvs = .ok l) :
    ∀ i ∈ l, i.column = some col ∧ i.code = "MAX_VIOLATION" := by
  intro i hi
  simp only [maxPart] at h
  split at h
  · injection h with h2
    subst h2
    cases hi
  · split at h
    · simp at h
    · injection h with h2
      subst h2
      split at hi
      · simp only [List.mem_singleton] at hi
        subst hi
        exact ⟨rfl, rfl⟩
      · cases hi

theorem rangeCheck_ok_decomp (s : Series) (col : String) (kvs : List (String × Yaml))
    (l : List ValidationIssue) (h : rangeCheck s col kvs = .ok l) :
    ∃ iMin iMax, minPart (s.values.filterMap coerceNum) col kvs = .ok iMin ∧
      maxPart (s.values.filterMap coerceNum) col kvs = .ok iMax ∧ l = iMin ++ iMax := by
  simp only [rangeCheck] at h
  split at h
  · split at h
    · simp at h
    · next iMin hMin =>
      split at h
      · simp at h
      · next iMax hMax =>
        injection h with h2
        exact ⟨iMin, iMax, hMin, hMax, h2.symm⟩
  · next hcond =>
    injection h with h2
    subst h2
    have hmin : lookupKey kvs "min" = none := by
      cases hm : lookupKey kvs "min" with
      | none => rfl
      | some y => simp [hm] at hcond
    have hmax : lookupKey kvs "max" = none := by
      cases hm : lookupKey kvs "max" with
      | none => rfl
      | some y => simp [hm] at hcond
    exact ⟨[], [], by simp [minPart, hmin], by simp [maxPart, hmax], rfl⟩

theorem rangeCheck_ok_mem (s : Series) (col : String) (kvs : List (String × Yaml))
    (l : List ValidationIssue) (h : rangeCheck s col kvs = .ok l) :
    ∀ i ∈ l, i.column = some col ∧ (i.code = "MIN_VIOLATION" ∨ i.code = "MAX_VIOLATION") := by
  intro i hi
  obtain ⟨iMin, iMax, hMin, hMax, hl⟩ := rangeCheck_ok_decomp s col kvs l h
  subst hl
  rcases List.mem_append.mp hi with hiL | hiR
  · obtain ⟨h1, h2⟩ := minPart_ok_mem _ _ _ _ hMin i hiL
    exact ⟨h1, Or.inl h2⟩
  · obtain ⟨h1, h2⟩ := maxPart_ok_mem _ _ _ _ hMax i hiR
    exact ⟨h1, Or.inr h2⟩

theorem allowedCheck_ok_mem (s : Series) (col : String) (kvs : List (String × Yaml))
    (l : List ValidationIssue) (h : allowedCheck s col kvs = .ok l) :
    ∀ i ∈ l, i.column = some col ∧ i.code = "ALLOWED_SET_VIOLATION" := by
  intro i hi
  simp only [allowedCheck] at h
  split at h
  · injection h with h2
    subst h2
    cases hi
  · injection h with h2
    subst h2
    cases hi
  · split at h
    · simp at h
    · split at h
      · simp at h
      · injection h with h2
        subst h2
        repeat' split at hi
        all_goals first
          | (simp only [List.mem_singleton] at hi; subst hi; exact ⟨rfl, rfl⟩)
          | cases hi

theorem regexCheck_ok_mem (A : Adapter) (s : Series) (col : String)
    (kvs : List (String × Yaml)) (l : List ValidationIssue)
    (h : regexCheck A s col kvs = .ok l) :
    ∀ i ∈ l, i.column = some col ∧ i.code = "REGEX_VIOLATION" := by
  intro i hi
  simp only [regexCheck] at h
  split at h
  · split at h
    · split at h
      · simp at h
      · injection h with h2
        subst h2
        repeat' split at hi
        all_goals first
          | (simp only [List.mem_singleton] at hi; subst hi; exact ⟨rfl, rfl⟩)
          | cases hi
    · simp at h
  · injection h with h2
    subst h2
    cases hi

theorem uniqueCheck_mem (s : Series) (col : String) (kvs : List (String × Yaml)) :
    ∀ i ∈ uniqueCheck s col kvs, i.column = some col ∧ i.code = "UNIQUE_VIOLATION" := by
  intro i hi
  simp only [uniqueCheck] at hi
  repeat' split at hi
  all_goals simp_all

theorem checkColumnPresent_ok (A : Adapter) (df : Table) (col : String)
    (kvs : List (String × Yaml)) (l : List ValidationIssue)
    (h : checkColumnPresent A df col kvs = .ok l) :
    ∃ i3 i4 i5,
      rangeCheck (df.getCol col) col kvs = .ok i3 ∧
      allowedCheck (df.getCol col) col kvs = .ok i4 ∧
      regexCheck A (df.getCol col) col kvs = .ok i5 ∧
      l = nullCheck (df.getCol col) col
            (((lookupKey kvs "nullable").getD (Yaml.bool true)).truthy) ++
          dtypeCheck A (df.getCol col) col ((lookupKey kvs "dtype").getD Yaml.null) ++
          i3 ++ i4 ++ i5 ++ uniqueCheck (df.getCol col) col kvs := by
  simp only [checkColumnPresent] at h
  split at h
  · simp at h
  · next i3 h3 =>
    split at h
    · simp at h
    · next i4 h4 =>
      split at h
      · simp at h
      · next i5 h5 =>
        injection h with h2
        exact ⟨i3, i4, i5, h3, h4, h5, h2.symm⟩

theorem checkColumnPresent_ok_mem (A : Adapter) (df : Table) (col : String)
    (kvs : List (String × Yaml)) (l : List ValidationIssue)
    (h : checkColumnPresent A df col kvs = .ok l) :
    ∀ i ∈ l, i.column = some col ∧ i.code ∈ perColumnCodes := by
  intro i hi
  obtain ⟨i3, i4, i5, h3, h4, h5, hl⟩ := checkColumnPresent_ok A df col kvs l h
  subst hl
  simp only [List.append_assoc, List.mem_append] at hi
  rcases hi with h1 | h2 | h3m | h4m | h5m | h6
  · obtain ⟨hc, he⟩ := nullCheck_mem _ _ _ i h1
    exact ⟨hc, by simp [perColumnCodes, he]⟩
  · obtain ⟨hc, he⟩ := dtypeCheck_mem A _ _ _ i h2
    rcases he with he | he <;> exact ⟨hc, by simp [perColumnCodes, he]⟩
  · obtain ⟨hc, he⟩ := rangeCheck_ok_mem _ _ _ _ h3 i h3m
    rcases he with he | he <;> exact ⟨hc, by simp [perColumnCodes, he]⟩
  · obtain ⟨hc, he⟩ := allowedCheck_ok_mem _ _ _ _ h4 i h4m
    exact ⟨hc, by simp [perColumnCodes, he]⟩
  · obtain ⟨hc, he⟩ := regexCheck_ok_mem A _ _ _ _ h5 i h5m
    exact ⟨hc, by simp [perColumnCodes, he]⟩
  · obtain ⟨hc, he⟩ := uniqueCheck_mem _ _ _ i h6
    exact ⟨hc, by simp [perColumnCodes, he]⟩

theorem checkColumn_absent (A : Adapter) (df : Table) (col : String) (sp : Yaml)
    (h : df.hasCol col = false) : checkColumn A df col sp = .ok [] := by
  simp only [checkColumn, h]
  rfl

theorem checkColumn_ok_mem (A : Adapter) (df : Table) (col : String) (sp : Yaml)
    (l : List ValidationIssue) (h : checkColumn A df col sp = .ok l) :
    ∀ i ∈ l, i.column = some col ∧ i.code ∈ perColumnCodes := by
  intro i hi
  simp only [checkColumn] at h
  split at h
  · injection h with h2
    subst h2
    cases hi
  · split at h
    · exact checkColumnPresent_ok_mem A df col _ l h i hi
    · simp at h

theorem columnsCheck_ok_mem (A : Adapter) (df : Table) :
    ∀ (cmap : List (String × Yaml)) (L : List ValidationIssue),
      columnsCheck A df cmap = .ok L →
      ∀ i ∈ L, ∃ c sp lc, (c, sp) ∈ cmap ∧ checkColumn A df c sp = .ok lc ∧ i ∈ lc
  | [], L, h => by
      injection h with h2
      subst h2
      intro i hi
      cases hi
  | (c, sp) :: rest, L, h => by
      simp only [columnsCheck] at h
      split at h
      · simp at h
      · next here hhere =>
        split at h
        · simp at h
        · next there hthere =>
          injection h with h2
          subst h2
          intro i hi
          rcases List.mem_append.mp hi with hiL | hiR
          · exact ⟨c, sp, here, List.mem_cons_self _ _, hhere, hiL⟩
          · obtain ⟨c', sp', lc, hm, hcc, hin⟩ :=
              columnsCheck_ok_mem A df rest there hthere i hiR
            exact ⟨c', sp', lc, List.mem_cons_of_mem _ hm, hcc, hin⟩

theorem columnsCheck_ok_of_mem (A : Adapter) (df : Table) :
    ∀ (cmap : List (String × Yaml)) (L : List ValidationIssue),
      columnsCheck A df cmap = .ok L →
      ∀ c sp, (c, sp) ∈ cmap → ∃ lc, checkColumn A df c sp = .ok lc
  | [], L, _, c, sp, hm => by cases hm
  | (c0, sp0) :: rest, L, h, c, sp, hm => by
      simp only [columnsCheck] at h
      split at h
      · simp at h
      · next here hhere =>
        split at h
        · simp at h
        · next there hthere =>
          rcases List.mem_cons.mp hm with heq | htail
          · injection heq with hc hs
            subst hc
            subst hs
            exact ⟨here, hhere⟩
          · exact columnsCheck_ok_of_mem A df rest there hthere c sp htail

theorem pkCheck_mem (df : Table) (pk : Yaml) :
    ∀ i ∈ pkCheck df pk, i.column = none ∧ i.code ∈ pkCodes := by
  intro i hi
  simp only [pkCheck, pkInvalidIssue] at hi
  repeat' split at hi
  all_goals simp_all [pkCodes]

theorem ruleIssuesFor_mem (A : Adapter) (df : Table) (r : Yaml) :
    ∀ i ∈ ruleIssuesFor A df r, i.column = none ∧ i.code ∈ ruleCodes := by
  intro i hi
  simp only [ruleIssuesFor] at hi
  repeat' split at hi
  all_goals simp_all [ruleCodes]

theorem ruleLoop_mem (A : Adapter) (df : Table) :
    ∀ (rs : List Yaml), ∀ i ∈ ruleLoop A df rs, i.column = none ∧ i.code ∈ ruleCodes
  | [] => by intro i hi; cases hi
  | r :: rest => by
      intro i hi
      rcases List.mem_append.mp hi with hiL | hiR
      · exact ruleIssuesFor_mem A df r i hiL
      · exact ruleLoop_mem A df rest i hiR

theorem rulesCheck_mem (A : Adapter) (df : Table) (ru : Yaml) :
    ∀ i ∈ rulesCheck A df ru, i.column = none ∧
      i.code ∈ "SCHEMA_RULES_INVALID" :: ruleCodes := by
  intro i hi
  simp only [rulesCheck] at hi
  split at hi
  · split at hi
    · obtain ⟨h1, h2⟩ := ruleLoop_mem A df _ i hi
      exact ⟨h1, List.mem_cons_of_mem _ h2⟩
    · simp only [List.mem_singleton] at hi
      subst hi
      exact ⟨rfl, by simp [schemaRulesInvalidIssue]⟩
  · cases hi

theorem missingSection_mem (df : Table) (req : List String) :
    ∀ i ∈ missingSection df req, i.column = none ∧ i.code = "MISSING_REQUIRED_COLUMNS" := by
  intro i hi
  simp only [missingSection] at hi
  split at hi
  · cases hi
  · simp only [List.mem_singleton] at hi
    subst hi
    exact ⟨rfl, rfl⟩

theorem extraSection_mem (df : Table) (ae : Bool) (cmap : List (String × Yaml)) :
    ∀ i ∈ extraSection df ae cmap, i.column = none ∧ i.code = "UNEXPECTED_COLUMNS" := by
  intro i hi
  simp only [extraSection] at hi
  repeat' split at hi
  all_goals simp_all [unexpectedColumnsIssue]

theorem validateBody_ok (A : Adapter) (df : Table) (ae : Bool) (pk ru : Yaml)
    (cmap : List (String × Yaml)) (v : Bool) (iss : List ValidationIssue)
    (h : validateBody A df ae pk ru cmap = .ok (v, iss)) :
    ∃ req colIss, requiredCols cmap = .ok req ∧ columnsCheck A df cmap = .ok colIss ∧
      iss = missingSection df req ++ extraSection df ae cmap ++ colIss ++
        pkCheck df pk ++ rulesCheck A df ru ∧
      v = !(iss.any (fun i => i.level == "ERROR")) := by
  simp only [validateBody] at h
  split at h
  · simp at h
  · next req hreq =>
    split at h
    · simp at h
    · next colIss hcol =>
      injection h with h2
      injection h2 with hv hiss
      subst hiss
      subst hv
      exact ⟨req, colIss, hreq, hcol, rfl, rfl⟩

/- Generic counting / filtering helpers. -/

theorem filter_nil_of_false {α : Type} {p : α → Bool} :
    ∀ {l : List α}, (∀ i ∈ l, p i = false) → l.filter p = []
  | [], _ => rfl
  | x :: xs, h => by
      simp only [List.filter_cons, h x (List.mem_cons_self _ _)]
      exact filter_nil_of_false (fun i hi => h i (List.mem_cons_of_mem _ hi))

theorem countP_zero_of_false {α : Type} {p : α → Bool} :
    ∀ {l : List α}, (∀ i ∈ l, p i = false) → l.countP p = 0
  | [], _ => rfl
  | x :: xs, h => by
      rw [List.countP_cons]
      simp [h x (List.mem_cons_self _ _),
        countP_zero_of_false (fun i hi => h i (List.mem_cons_of_mem _ hi))]

/- Reductions of the rule section. -/

theorem rulesCheck_list (A : Adapter) (df : Table) (rs : List Yaml) :
    rulesCheck A df (Yaml.list rs) = ruleLoop A df rs := by
  cases rs <;> rfl

theorem rulesCheck_not_list (A : Adapter) (df : Table) (ru : Yaml)
    (hru : ru.truthy = true) (hnl : isListY ru = false) :
    rulesCheck A df ru = [schemaRulesInvalidIssue] := by
  cases ru <;> simp_all [rulesCheck, isListY]

theorem rulesCheck_skip (A : Adapter) (df : Table) (ru : Yaml)
    (h : ru.truthy = false) : rulesCheck A df ru = [] := by
  unfold rulesCheck
  rw [h]
  rfl

theorem ruleLoop_sub (A : Adapter) (df : Table) :
    ∀ (rs : List Yaml) (r : Yaml), r ∈ rs →
      ∀ i ∈ ruleIssuesFor A df r, i ∈ ruleLoop A df rs
  | [], r, hr => by cases hr
  | r0 :: rest, r, hr => by
      intro i hi
      rcases List.mem_cons.mp hr with heq | htail
      · subst heq
        exact List.mem_append.mpr (Or.inl hi)
      · exact List.mem_append.mpr (Or.inr (ruleLoop_sub A df rest r htail i hi))

theorem ruleIssuesFor_eval_error (A : Adapter) (df : Table)
    (kvs : List (String × Yaml)) (e msg : String)
    (hexpr : lookupKey kvs "expr" = some (Yaml.str e)) (hne2 : e ≠ "")
    (heval : safeEvalExpr A df e = .error msg) :
    ruleIssuesFor A df (Yaml.map kvs) =
      [⟨"ERROR", "TABLE_RULE_EVAL_ERROR", msg, none, none, none⟩] := by
  have ht : (Yaml.str e).truthy = true := by simp [Yaml.truthy, hne2]
  simp [ruleIssuesFor, hexpr, ht, heval]

/- Reductions of the primary-key section. -/

theorem pkCheck_invalid (df : Table) (pk : Yaml)
    (ht : pk.truthy = true) (hb : isStringList pk = false) :
    pkCheck df pk = [pkInvalidIssue] := by
  simp [pkCheck, ht, hb]

theorem pkCheck_skip (df : Table) (pk : Yaml) (h : pk.truthy = false) :
    pkCheck df pk = [] := by
  simp [pkCheck, h]

/- Claim theorems, continued. -/

/-- C9: for every schema whose rules entry is present, truthy and not a list
(and whose columns mapping is valid, so that validation reaches the rules
section), validate emits exactly one SCHEMA_RULES_INVALID ERROR, evaluates no
table rule (no TABLE_RULE_VIOLATION, TABLE_RULE_EVAL_ERROR or
SCHEMA_RULE_MISSING_EXPR issue appears), and every other check category still
runs: the issue list is exactly that of the same schema without rules,
followed by the single SCHEMA_RULES_INVALID issue. -/
theorem C9_rules_not_a_list (A : Adapter) (df : Table) (s s2 : Schema)
    (v v2 : Bool) (iss iss2 : List ValidationIssue)
    (cmap : List (String × Yaml))
    (hcs : columnsSpecOf s = Yaml.map cmap) (hne : cmap ≠ [])
    (hru : (s.rules.getD (Yaml.list [])).truthy = true)
    (hnl : isListY (s.rules.getD (Yaml.list [])) = false)
    (hs2 : s2 = ⟨s.columns, s.allow_extra_columns, s.primary_key, none⟩)
    (hok : validate A df s = .ok (v, iss))
    (hok2 : validate A df s2 = .ok (v2, iss2)) :
    iss = iss2 ++ [schemaRulesInvalidIssue] ∧
    iss.countP (fun i => i.code == "SCHEMA_RULES_INVALID") = 1 ∧
    iss.countP (fun i => i.code == "TABLE_RULE_VIOLATION" ||
      i.code == "TABLE_RULE_EVAL_ERROR" || i.code == "SCHEMA_RULE_MISSING_EXPR") = 0 ∧
    v = false := by
  have hcs2 : columnsSpecOf s2 = Yaml.map cmap := by rw [hs2]; exact hcs
  rw [validate_eq_body A df s cmap hcs hne] at hok
  rw [validate_eq_body A df s2 cmap hcs2 hne] at hok2
  obtain ⟨req, colIss, hreq, hcol, hiss, hv⟩ := validateBody_ok A df _ _ _ cmap v iss hok
  obtain ⟨req2, colIss2, hreq2, hcol2, hiss2, _⟩ := validateBody_ok A df _ _ _ cmap v2 iss2 hok2
  have hreqe : req2 = req := by
    rw [hreq] at hreq2
    injection hreq2 with hx
    exact hx.symm
  have hcole : colIss2 = colIss := by
    rw [hcol] at hcol2
    injection hcol2 with hx
    exact hx.symm
  rw [hreqe] at hiss2
  rw [hcole] at hiss2
  have hrr : rulesCheck A df (s.rules.getD (Yaml.list [])) = [schemaRulesInvalidIssue] :=
    rulesCheck_not_list A df _ hru hnl
  have hrr2 : rulesCheck A df (s2.rules.getD (Yaml.list [])) = [] := by
    rw [hs2]
    rfl
  have hs2ae : s2.allow_extra_columns = s.allow_extra_columns := by rw [hs2]
  have hs2pk : s2.primary_key = s.primary_key := by rw [hs2]
  have hisseq : iss = iss2 ++ [schemaRulesInvalidIssue] := by
    rw [hiss, hiss2, hrr, hrr2, hs2ae, hs2pk]
    simp
  refine ⟨hisseq, ?_, ?_, ?_⟩
  · rw [hiss]
    rw [List.countP_append, List.countP_append, List.countP_append, List.countP_append]
    rw [countP_zero_of_false (fun i hi => by
        obtain ⟨_, hc⟩ := missingSection_mem df req i hi
        rw [hc]; rfl),
      countP_zero_of_false (fun i hi => by
        obtain ⟨_, hc⟩ := extraSection_mem df _ cmap i hi
        rw [hc]; rfl),
      countP_zero_of_false (fun i hi => by
        obtain ⟨c, sp, lc, hmem2, hok3, hin⟩ := columnsCheck_ok_mem A df cmap colIss hcol i hi
        obtain ⟨_, hc⟩ := checkColumn_ok_mem A df c sp lc hok3 i hin
        have hall : ∀ x ∈ perColumnCodes, (x == "SCHEMA_RULES_INVALID") = false := by decide
        exact hall _ hc),
      countP_zero_of_false (fun i hi => by
        obtain ⟨_, hc⟩ := pkCheck_mem df _ i hi
        have : ∀ x ∈ pkCodes, (x == "SCHEMA_RULES_INVALID") = false := by decide
        exact this _ hc)]
    rw [hrr]
    rfl
  · rw [hiss]
    rw [List.countP_append, List.countP_append, List.countP_append, List.countP_append]
    rw [countP_zero_of_false (fun i hi => by
        obtain ⟨_, hc⟩ := missingSection_mem df req i hi
        rw [hc]; rfl),
      countP_zero_of_false (fun i hi => by
        obtain ⟨_, hc⟩ := extraSection_mem df _ cmap i hi
        rw [hc]; rfl),
      countP_zero_of_false (fun i hi => by
        obtain ⟨c, sp, lc, hmem2, hok3, hin⟩ := columnsCheck_ok_mem A df cmap colIss hcol i hi
        obtain ⟨_, hc⟩ := checkColumn_ok_mem A df c sp lc hok3 i hin
        have hall : ∀ x ∈ perColumnCodes, (x == "TABLE_RULE_VIOLATION" ||
          x == "TABLE_RULE_EVAL_ERROR" || x == "SCHEMA_RULE_MISSING_EXPR") = false := by decide
        exact hall _ hc),
      countP_zero_of_false (fun i hi => by
        obtain ⟨_, hc⟩ := pkCheck_mem df _ i hi
        have : ∀ x ∈ pkCodes, (x == "TABLE_RULE_VIOLATION" ||
          x == "TABLE_RULE_EVAL_ERROR" || x == "SCHEMA_RULE_MISSING_EXPR") = false := by decide
        exact this _ hc)]
    rw [hrr]
    rfl
  · rw [hv, hisseq]
    have : (iss2 ++ [schemaRulesInvalidIssue]).any (fun i => i.level == "ERROR") = true := by
      rw [List.any_append]
      simp [schemaRulesInvalidIssue]
    rw [this]
    rfl

theorem C9_rules_not_a_list_witness :
    ([schemaRulesInvalidIssue] : List ValidationIssue) =
      [] ++ [schemaRulesInvalidIssue] ∧
    ([schemaRulesInvalidIssue] : List ValidationIssue).countP
      (fun i => i.code == "SCHEMA_RULES_INVALID") = 1 ∧
    ([schemaRulesInvalidIssue] : List ValidationIssue).countP
      (fun i => i.code == "TABLE_RULE_VIOLATION" ||
        i.code == "TABLE_RULE_EVAL_ERROR" || i.code == "SCHEMA_RULE_MISSING_EXPR") = 0 ∧
    false = false :=
  C9_rules_not_a_list adA tEmpty s9w s9wb false true [schemaRulesInvalidIssue] []
    [("a", Yaml.map [])] rfl (by simp) rfl rfl rfl rfl rfl

/-- C6 (amended): for every schema whose primary_key entry is present and
truthy but not a list of strings, and whose columns mapping is valid so the
check is reached, validate emits the ERROR issue SCHEMA_PRIMARY_KEY_INVALID,
independent of the table content; a falsy primary_key (None or the empty
sequence) is silently skipped instead. -/
theorem C6_pk_invalid (A : Adapter) (df : Table) (s : Schema)
    (v : Bool) (iss : List ValidationIssue) (cmap : List (String × Yaml))
    (hcs : columnsSpecOf s = Yaml.map cmap) (hne : cmap ≠ [])
    (ht : (s.primary_key.getD Yaml.null).truthy = true)
    (hb : isStringList (s.primary_key.getD Yaml.null) = false)
    (hok : validate A df s = .ok (v, iss)) :
    pkInvalidIssue ∈ iss ∧ pkInvalidIssue.level = "ERROR" ∧
    pkInvalidIssue.code = "SCHEMA_PRIMARY_KEY_INVALID" ∧ v = false := by
  rw [validate_eq_body A df s cmap hcs hne] at hok
  obtain ⟨req, colIss, hreq, hcol, hiss, hv⟩ := validateBody_ok A df _ _ _ cmap v iss hok
  have hpk : pkCheck df (s.primary_key.getD Yaml.null) = [pkInvalidIssue] :=
    pkCheck_invalid df _ ht hb
  have hmem : pkInvalidIssue ∈ iss := by
    rw [hiss, hpk]
    simp [List.mem_append]
  refine ⟨hmem, rfl, rfl, ?_⟩
  rw [hv]
  have : iss.any (fun i => i.level == "ERROR") = true :=
    List.any_eq_true.mpr ⟨pkInvalidIssue, hmem, rfl⟩
  rw [this]
  rfl

theorem C6_pk_invalid_witness :
    pkInvalidIssue ∈ [pkInvalidIssue] ∧ pkInvalidIssue.level = "ERROR" ∧
    pkInvalidIssue.code = "SCHEMA_PRIMARY_KEY_INVALID" ∧ false = false :=
  C6_pk_invalid adA tEmpty s6w false [pkInvalidIssue] [("a", Yaml.map [])]
    rfl (by simp) rfl rfl rfl

/-- C7: a rule whose evaluation raises contributes a distinct ERROR issue
TABLE_RULE_EVAL_ERROR carrying the underlying failure message, and every rule
in the list (before or after it) still contributes its own issues to the
result. -/
theorem C7_rule_eval_error_isolated (A : Adapter) (df : Table) (s : Schema)
    (v : Bool) (iss : List ValidationIssue) (cmap : List (String × Yaml))
    (rs : List Yaml) (kvs : List (String × Yaml)) (e msg : String)
    (hcs : columnsSpecOf s = Yaml.map cmap) (hne : cmap ≠ [])
    (hrs : s.rules.getD (Yaml.list []) = Yaml.list rs)
    (hr : Yaml.map kvs ∈ rs)
    (hexpr : lookupKey kvs "expr" = some (Yaml.str e)) (hne2 : e ≠ "")
    (heval : safeEvalExpr A df e = .error msg)
    (hok : validate A df s = .ok (v, iss)) :
    (⟨"ERROR", "TABLE_RULE_EVAL_ERROR", msg, none, none, none⟩ : ValidationIssue) ∈ iss ∧
    ∀ r2 ∈ rs, ∀ i ∈ ruleIssuesFor A df r2, i ∈ iss := by
  rw [validate_eq_body A df s cmap hcs hne] at hok
  obtain ⟨req, colIss, hreq, hcol, hiss, hv⟩ := validateBody_ok A df _ _ _ cmap v iss hok
  have hrules : rulesCheck A df (s.rules.getD (Yaml.list [])) = ruleLoop A df rs := by
    rw [hrs, rulesCheck_list]
  have hsub : ∀ r2 ∈ rs, ∀ i ∈ ruleIssuesFor A df r2, i ∈ iss := by
    intro r2 hr2 i hi
    rw [hiss, hrules]
    exact List.mem_append_right _ (ruleLoop_sub A df rs r2 hr2 i hi)
  refine ⟨?_, hsub⟩
  apply hsub (Yaml.map kvs) hr
  rw [ruleIssuesFor_eval_error A df kvs e msg hexpr hne2 heval]
  exact List.mem_singleton.mpr rfl

theorem C7_rule_eval_error_isolated_witness :
    (⟨"ERROR", "TABLE_RULE_EVAL_ERROR", "Failed to evaluate rule expr=boom: kaput",
      none, none, none⟩ : ValidationIssue) ∈
      [⟨"ERROR", "TABLE_RULE_EVAL_ERROR", "Failed to evaluate rule expr=boom: kaput",
        none, none, none⟩,
       ⟨"ERROR", "TABLE_RULE_VIOLATION", "Rule unnamed_rule failed for 1 rows. expr=ok",
        none, some 1, some [Yaml.map [("x", Yaml.int 1)]]⟩] ∧
    (⟨"ERROR", "TABLE_RULE_VIOLATION", "Rule unnamed_rule failed for 1 rows. expr=ok",
      none, some 1, some [Yaml.map [("x", Yaml.int 1)]]⟩ : ValidationIssue) ∈
      [⟨"ERROR", "TABLE_RULE_EVAL_ERROR", "Failed to evaluate rule expr=boom: kaput",
        none, none, none⟩,
       ⟨"ERROR", "TABLE_RULE_VIOLATION", "Rule unnamed_rule failed for 1 rows. expr=ok",
        none, some 1, some [Yaml.map [("x", Yaml.int 1)]]⟩] := by
  have h := C7_rule_eval_error_isolated adC7 dfC7 s7w false
    [⟨"ERROR", "TABLE_RULE_EVAL_ERROR", "Failed to evaluate rule expr=boom: kaput",
      none, none, none⟩,
     ⟨"ERROR", "TABLE_RULE_VIOLATION", "Rule unnamed_rule failed for 1 rows. expr=ok",
      none, some 1, some [Yaml.map [("x", Yaml.int 1)]]⟩]
    [("x", Yaml.map [])] [r71, r72]
    [("name", Yaml.str "r1"), ("expr", Yaml.str "boom")] "boom"
    "Failed to evaluate rule expr=boom: kaput"
    rfl (by simp) rfl (List.mem_cons_self _ _) rfl (by simp) rfl rfl
  exact ⟨h.1, h.2 r72 (List.mem_cons_of_mem _ (List.mem_cons_self _ _)) _
    (List.mem_singleton.mpr rfl)⟩

/- Skip lemmas: each per-column check is silent when its spec key is absent
or falsy. -/

theorem dtypeCheck_skip (A : Adapter) (s : Series) (col : String) (d : Yaml)
    (h : d.truthy = false) : dtypeCheck A s col d = [] := by
  simp [dtypeCheck, h]

theorem rangeCheck_skip (s : Series) (col : String) (kvs : List (String × Yaml))
    (h1 : lookupKey kvs "min" = none) (h2 : lookupKey kvs "max" = none) :
    rangeCheck s col kvs = .ok [] := by
  simp [rangeCheck, h1, h2]

theorem allowedCheck_skip (s : Series) (col : String) (kvs : List (String × Yaml))
    (h : (match lookupKey kvs "allowed" with
          | none => true | some Yaml.null => true | some _ => false) = true) :
    allowedCheck s col kvs = .ok [] := by
  cases ha : lookupKey kvs "allowed" with
  | none => simp [allowedCheck, ha]
  | some y => cases y <;> simp_all [allowedCheck, ha]

theorem regexCheck_skip (A : Adapter) (s : Series) (col : String)
    (kvs : List (String × Yaml))
    (h : ((lookupKey kvs "regex").getD Yaml.null).truthy = false) :
    regexCheck A s col kvs = .ok [] := by
  simp [regexCheck, h]

theorem uniqueCheck_skip (s : Series) (col : String) (kvs : List (String × Yaml))
    (h : ((lookupKey kvs "unique").getD (Yaml.bool false)).truthy = false) :
    uniqueCheck s col kvs = [] := by
  simp [uniqueCheck, h]

theorem nullCheck_skip (s : Series) (col : String) : nullCheck s col true = [] := rfl

/-- A column whose normalised spec is inert produces no issue at all. -/
theorem checkColumn_inert (A : Adapter) (df : Table) (col : String) (sp : Yaml)
    (h : colSpecInert sp = true) : checkColumn A df col sp = .ok [] := by
  cases hcol : df.hasCol col with
  | false => exact checkColumn_absent A df col sp hcol
  | true =>
    cases hs : specOr sp with
    | map kvs =>
      unfold colSpecInert at h
      rw [hs] at h
      simp only [Bool.and_eq_true] at h
      obtain ⟨⟨⟨⟨⟨⟨h1, h2⟩, h3⟩, h4⟩, h5⟩, h6⟩, h7⟩ := h
      have h3n : lookupKey kvs "min" = none := Option.isNone_iff_eq_none.mp h3
      have h4n : lookupKey kvs "max" = none := Option.isNone_iff_eq_none.mp h4
      simp only [checkColumn, hcol, Bool.not_true, hs]
      simp only [checkColumnPresent]
      rw [rangeCheck_skip _ _ _ h3n h4n, allowedCheck_skip _ _ _ h5,
        regexCheck_skip A _ _ _ (by simpa using h6),
        uniqueCheck_skip _ _ _ (by simpa using h7)]
      rw [h1]
      rw [dtypeCheck_skip A _ _ _ (by simpa using h2)]
      rfl
    | null =>
      exfalso
      unfold colSpecInert at h
      rw [hs] at h
      cases h
    | bool b =>
      exfalso
      unfold colSpecInert at h
      rw [hs] at h
      cases h
    | int n =>
      exfalso
      unfold colSpecInert at h
      rw [hs] at h
      cases h
    | num q =>
      exfalso
      unfold colSpecInert at h
      rw [hs] at h
      cases h
    | str t =>
      exfalso
      unfold colSpecInert at h
      rw [hs] at h
      cases h
    | list xs =>
      exfalso
      unfold colSpecInert at h
      rw [hs] at h
      cases h

theorem columnsCheck_inert (A : Adapter) (df : Table) :
    ∀ cmap : List (String × Yaml), (∀ p ∈ cmap, colSpecInert p.2 = true) →
      columnsCheck A df cmap = .ok []
  | [], _ => rfl
  | (c, sp) :: rest, h => by
      simp only [columnsCheck]
      rw [checkColumn_inert A df c sp (h (c, sp) (List.mem_cons_self _ _)),
        columnsCheck_inert A df rest (fun p hp => h p (List.mem_cons_of_mem _ hp))]
      rfl

theorem missingSection_nil (df : Table) (req : List String)
    (h : ∀ c ∈ req, df.hasCol c = true) : missingSection df req = [] := by
  have : req.filter (fun c => !(df.hasCol c)) = [] :=
    filter_nil_of_false (fun c hc => by rw [h c hc]; rfl)
  simp [missingSection, this]

/-- C4 (amended): a schema whose columns form a non-empty mapping of inert
specs (nullable truthy-or-absent, no dtype, no min/max/allowed/regex/unique),
whose required columns are all present, with no (truthy) primary_key, no
(truthy) rules and allow_extra_columns not falsy, validates as VALID with
zero issues for any table content. -/
theorem C4_all_inert_valid (A : Adapter) (df : Table) (s : Schema)
    (cmap : List (String × Yaml)) (req : List String)
    (hcs : columnsSpecOf s = Yaml.map cmap) (hne : cmap ≠ [])
    (hinert : ∀ p ∈ cmap, colSpecInert p.2 = true)
    (hreq : requiredCols cmap = .ok req)
    (hpres : ∀ c ∈ req, df.hasCol c = true)
    (hae : (s.allow_extra_columns.getD (Yaml.bool true)).truthy = true)
    (hpk : (s.primary_key.getD Yaml.null).truthy = false)
    (hru : (s.rules.getD (Yaml.list [])).truthy = false) :
    validate A df s = .ok (true, []) := by
  rw [validate_eq_body A df s cmap hcs hne]
  simp only [validateBody, hreq]
  rw [columnsCheck_inert A df cmap hinert]
  rw [missingSection_nil df req hpres, pkCheck_skip df _ hpk, rulesCheck_skip A df _ hru, hae]
  simp [extraSection]

theorem C4_all_inert_valid_witness : validate adA tEmpty s4w = .ok (true, []) :=
  C4_all_inert_valid adA tEmpty s4w [("a", Yaml.map [("nullable", Yaml.bool true)])] []
    rfl (by simp) (by decide) rfl (by simp) rfl rfl rfl

/-- C2: for every schema with a valid columns mapping and every table missing
at least one required column, the result carries exactly one
MISSING_REQUIRED_COLUMNS issue, an ERROR, whose examples are exactly the
missing required names in schema order and whose n_rows is their count; and
no per-column check emits any issue for any schema column absent from the
table (no issue in the result is located at such a column). -/
theorem C2_missing_required (A : Adapter) (df : Table) (s : Schema)
    (v : Bool) (iss : List ValidationIssue) (cmap : List (String × Yaml))
    (req : List String)
    (hcs : columnsSpecOf s = Yaml.map cmap) (hne : cmap ≠ [])
    (hreq : requiredCols cmap = .ok req)
    (hmiss : req.filter (fun c => !(df.hasCol c)) ≠ [])
    (hok : validate A df s = .ok (v, iss)) :
    iss.filter (fun i => i.code == "MISSING_REQUIRED_COLUMNS") =
      [missingRequiredIssue (req.filter (fun c => !(df.hasCol c)))] ∧
    (missingRequiredIssue (req.filter (fun c => !(df.hasCol c)))).level = "ERROR" ∧
    (missingRequiredIssue (req.filter (fun c => !(df.hasCol c)))).n_rows =
      some (req.filter (fun c => !(df.hasCol c))).length ∧
    (missingRequiredIssue (req.filter (fun c => !(df.hasCol c)))).examples =
      some ((req.filter (fun c => !(df.hasCol c))).map Yaml.str) ∧
    ∀ c sp, (c, sp) ∈ cmap → df.hasCol c = false → ∀ i ∈ iss, i.column ≠ some c := by
  rw [validate_eq_body A df s cmap hcs hne] at hok
  obtain ⟨req', colIss, hreq', hcol, hiss, hv⟩ := validateBody_ok A df _ _ _ cmap v iss hok
  have hre : req' = req := by
    rw [hreq] at hreq'
    injection hreq' with hx
    exact hx.symm
  subst hre
  have hie : (req'.filter (fun c => !(df.hasCol c))).isEmpty = false := by
    cases hh : (req'.filter (fun c => !(df.hasCol c))).isEmpty with
    | false => rfl
    | true => exact absurd (List.isEmpty_iff.mp hh) hmiss
  have hM : missingSection df req' = [missingRequiredIssue
      (req'.filter (fun c => !(df.hasCol c)))] := by
    simp [missingSection, hie]
  refine ⟨?_, rfl, rfl, rfl, ?_⟩
  · have hE : (extraSection df (s.allow_extra_columns.getD (Yaml.bool true)).truthy cmap).filter
        (fun i => i.code == "MISSING_REQUIRED_COLUMNS") = [] :=
      filter_nil_of_false (fun i hi => by
        obtain ⟨_, hc⟩ := extraSection_mem df _ cmap i hi
        rw [hc]; rfl)
    have hC : colIss.filter (fun i => i.code == "MISSING_REQUIRED_COLUMNS") = [] :=
      filter_nil_of_false (fun i hi => by
        obtain ⟨c, sp, lc, hmem2, hok3, hin⟩ := columnsCheck_ok_mem A df cmap colIss hcol i hi
        obtain ⟨_, hc⟩ := checkColumn_ok_mem A df c sp lc hok3 i hin
        have hall : ∀ x ∈ perColumnCodes, (x == "MISSING_REQUIRED_COLUMNS") = false := by
          decide
        exact hall _ hc)
    have hP : (pkCheck df (s.primary_key.getD Yaml.null)).filter
        (fun i => i.code == "MISSING_REQUIRED_COLUMNS") = [] :=
      filter_nil_of_false (fun i hi => by
        obtain ⟨_, hc⟩ := pkCheck_mem df _ i hi
        have hall : ∀ x ∈ pkCodes, (x == "MISSING_REQUIRED_COLUMNS") = false := by decide
        exact hall _ hc)
    have hR : (rulesCheck A df (s.rules.getD (Yaml.list []))).filter
        (fun i => i.code == "MISSING_REQUIRED_COLUMNS") = [] :=
      filter_nil_of_false (fun i hi => by
        obtain ⟨_, hc⟩ := rulesCheck_mem A df _ i hi
        have hall : ∀ x ∈ "SCHEMA_RULES_INVALID" :: ruleCodes,
            (x == "MISSING_REQUIRED_COLUMNS") = false := by decide
        exact hall _ hc)
    rw [hiss, hM]
    simp only [List.filter_append]
    rw [hE, hC, hP, hR]
    rfl
  · intro c sp hmemc hcolF i hi heq
    rw [hiss] at hi
    rcases List.mem_append.mp hi with hi4 | hiR
    rcases List.mem_append.mp hi4 with hi3 | hiP
    rcases List.mem_append.mp hi3 with hi2 | hiC
    rcases List.mem_append.mp hi2 with hiM | hiE
    · obtain ⟨hcn, _⟩ := missingSection_mem df req' i hiM
      rw [hcn] at heq
      cases heq
    · obtain ⟨hcn, _⟩ := extraSection_mem df _ cmap i hiE
      rw [hcn] at heq
      cases heq
    · obtain ⟨c', sp', lc, hmem2, hok3, hin⟩ := columnsCheck_ok_mem A df cmap colIss hcol i hiC
      obtain ⟨hcn, _⟩ := checkColumn_ok_mem A df c' sp' lc hok3 i hin
      rw [hcn] at heq
      injection heq with hce
      subst hce
      rw [checkColumn_absent A df c' sp' hcolF] at hok3
      injection hok3 with hx
      subst hx
      cases hin
    · obtain ⟨hcn, _⟩ := pkCheck_mem df _ i hiP
      rw [hcn] at heq
      cases heq
    · obtain ⟨hcn, _⟩ := rulesCheck_mem A df _ i hiR
      rw [hcn] at heq
      cases heq

theorem C2_missing_required_witness :
    ([missingRequiredIssue ["a"]] : List ValidationIssue).filter
      (fun i => i.code == "MISSING_REQUIRED_COLUMNS") = [missingRequiredIssue ["a"]] ∧
    (missingRequiredIssue ["a"]).level = "ERROR" ∧
    (missingRequiredIssue ["a"]).n_rows = some 1 ∧
    (missingRequiredIssue ["a"]).examples = some [Yaml.str "a"] := by
  have h := C2_missing_required adA tEmpty s2w false [missingRequiredIssue ["a"]]
    [("a", Yaml.map [("required", Yaml.bool true)])] ["a"]
    rfl (by simp) rfl (by decide) rfl
  exact ⟨h.1, h.2.1, h.2.2.1, h.2.2.2.1⟩

/- Infrastructure for locating one column's range check inside the result. -/

theorem checkColumn_present_eq (A : Adapter) (df : Table) (col : String) (sp : Yaml)
    (kvs : List (String × Yaml)) (hcol : df.hasCol col = true)
    (hsp : specOr sp = Yaml.map kvs) :
    checkColumn A df col sp = checkColumnPresent A df col kvs := by
  simp [checkColumn, hcol, hsp]

theorem minPart_eq (valid : List Rat) (col : String) (kvs : List (String × Yaml))
    (ymn : Yaml) (mn : Rat) (hmin : lookupKey kvs "min" = some ymn)
    (hmn : pyFloat ymn = .ok mn) :
    minPart valid col kvs =
      .ok (if (valid.filter (fun q => decide (q < mn))).length > 0
        then [minViolationIssue col mn (valid.filter (fun q => decide (q < mn)))]
        else []) := by
  simp [minPart, hmin, hmn]

theorem maxPart_none (valid : List Rat) (col : String) (kvs : List (String × Yaml))
    (h : lookupKey kvs "max" = none) : maxPart valid col kvs = .ok [] := by
  simp [maxPart, h]

/-- With schema column names free of duplicates, filtering the accumulated
column issues by a predicate that only matches one column gives exactly that
column's own filtered issues. -/
theorem columnsCheck_filter (A : Adapter) (df : Table) (p : ValidationIssue → Bool)
    (col : String) (hp : ∀ i, p i = true → i.column = some col) :
    ∀ (cmap : List (String × Yaml)) (L lc : List ValidationIssue) (sp : Yaml),
      (cmap.map Prod.fst).Nodup → (col, sp) ∈ cmap →
      columnsCheck A df cmap = .ok L → checkColumn A df col sp = .ok lc →
      L.filter p = lc.filter p
  | [], L, lc, sp, _, hmem, _, _ => by cases hmem
  | (c0, sp0) :: rest, L, lc, sp, hnd, hmem, hok, hlc => by
      simp only [columnsCheck] at hok
      split at hok
      · simp at hok
      · next here hhere =>
        split at hok
        · simp at hok
        · next there hthere =>
          injection hok with h2
          subst h2
          rw [List.filter_append]
          simp only [List.map_cons, List.nodup_cons] at hnd
          obtain ⟨hc0, hndr⟩ := hnd
          rcases List.mem_cons.mp hmem with heq | htail
          · injection heq with he1 he2
            subst he1
            subst he2
            rw [hhere] at hlc
            injection hlc with hx
            subst hx
            have hT : there.filter p = [] :=
              filter_nil_of_false (fun i hi => by
                obtain ⟨c', sp', lc', hm', hok', hin'⟩ :=
                  columnsCheck_ok_mem A df rest there hthere i hi
                obtain ⟨hcn, _⟩ := checkColumn_ok_mem A df c' sp' lc' hok' i hin'
                cases hpv : p i with
                | false => rfl
                | true =>
                  exfalso
                  have hx2 := hp i hpv
                  rw [hcn] at hx2
                  injection hx2 with hcc
                  subst hcc
                  exact hc0 (List.mem_map.mpr ⟨(c', sp'), hm', rfl⟩))
            rw [hT, List.append_nil]
          · have hcol_ne : c0 ≠ col := by
              intro hE
              subst hE
              exact hc0 (List.mem_map.mpr ⟨(c0, sp), htail, rfl⟩)
            have hH : here.filter p = [] :=
              filter_nil_of_false (fun i hi => by
                obtain ⟨hcn, _⟩ := checkColumn_ok_mem A df c0 sp0 here hhere i hi
                cases hpv : p i with
                | false => rfl
                | true =>
                  exfalso
                  have hx2 := hp i hpv
                  rw [hcn] at hx2
                  injection hx2 with hcc
                  exact hcol_ne hcc)
            rw [hH, List.nil_append]
            exact columnsCheck_filter A df p col hp rest there lc sp hndr htail hthere hlc


theorem minPart_none (valid : List Rat) (col : String) (kvs : List (String × Yaml))
    (h : lookupKey kvs "min" = none) : minPart valid col kvs = .ok [] := by
  simp [minPart, h]

theorem maxPart_eq (valid : List Rat) (col : String) (kvs : List (String × Yaml))
    (ymx : Yaml) (mx : Rat) (hmax : lookupKey kvs "max" = some ymx)
    (hmx : pyFloat ymx = .ok mx) :
    maxPart valid col kvs =
      .ok (if (valid.filter (fun q => decide (mx < q))).length > 0
        then [maxViolationIssue col mx (valid.filter (fun q => decide (mx < q)))]
        else []) := by
  simp [maxPart, hmax, hmx]

/-- Filtering the whole result by a predicate that only matches MIN/MAX
issues of one schema column reduces to filtering that column's own
`minPart` and `maxPart` outputs: every other check section and every other
column is filtered away. -/
theorem iss_filter_range (A : Adapter) (df : Table) (s : Schema)
    (v : Bool) (iss : List ValidationIssue) (cmap : List (String × Yaml))
    (col : String) (sp : Yaml) (kvs : List (String × Yaml))
    (p : ValidationIssue → Bool)
    (hp : ∀ i : ValidationIssue, p i = true → i.column = some col)
    (hpc : ∀ i : ValidationIssue, i.code ≠ "MIN_VIOLATION" → i.code ≠ "MAX_VIOLATION" →
      p i = false)
    (hcs : columnsSpecOf s = Yaml.map cmap) (hne : cmap ≠ [])
    (hnd : (cmap.map Prod.fst).Nodup)
    (hmem : (col, sp) ∈ cmap)
    (hsp : specOr sp = Yaml.map kvs)
    (hcol : df.hasCol col = true)
    (hok : validate A df s = .ok (v, iss)) :
    ∃ iMin iMax,
      minPart ((df.getCol col).values.filterMap coerceNum) col kvs = .ok iMin ∧
      maxPart ((df.getCol col).values.filterMap coerceNum) col kvs = .ok iMax ∧
      iss.filter p = iMin.filter p ++ iMax.filter p := by
  rw [validate_eq_body A df s cmap hcs hne] at hok
  obtain ⟨req, colIss, hreq, hcolIss, hiss, hv⟩ := validateBody_ok A df _ _ _ cmap v iss hok
  obtain ⟨lc, hlc⟩ := columnsCheck_ok_of_mem A df cmap colIss hcolIss col sp hmem
  have hlcP : checkColumnPresent A df col kvs = .ok lc := by
    rw [← checkColumn_present_eq A df col sp kvs hcol hsp]
    exact hlc
  obtain ⟨i3, i4, i5, h3, h4, h5, hlceq⟩ := checkColumnPresent_ok A df col kvs lc hlcP
  obtain ⟨iMin, iMax, hMin, hMax, h3eq⟩ := rangeCheck_ok_decomp _ col kvs i3 h3
  refine ⟨iMin, iMax, hMin, hMax, ?_⟩
  have hCF : colIss.filter p = lc.filter p :=
    columnsCheck_filter A df p col hp cmap colIss lc sp hnd hmem hcolIss hlc
  have fN : (nullCheck (df.getCol col) col
      ((lookupKey kvs "nullable").getD (Yaml.bool true)).truthy).filter p = [] :=
    filter_nil_of_false (fun i hi => by
      obtain ⟨_, hc⟩ := nullCheck_mem _ _ _ i hi
      exact hpc i (by rw [hc]; decide) (by rw [hc]; decide))
  have fD : (dtypeCheck A (df.getCol col) col
      ((lookupKey kvs "dtype").getD Yaml.null)).filter p = [] :=
    filter_nil_of_false (fun i hi => by
      obtain ⟨_, hc⟩ := dtypeCheck_mem A _ _ _ i hi
      rcases hc with hc | hc <;>
        exact hpc i (by rw [hc]; decide) (by rw [hc]; decide))
  have f4 : i4.filter p = [] :=
    filter_nil_of_false (fun i hi => by
      obtain ⟨_, hc⟩ := allowedCheck_ok_mem _ _ _ _ h4 i hi
      exact hpc i (by rw [hc]; decide) (by rw [hc]; decide))
  have f5 : i5.filter p = [] :=
    filter_nil_of_false (fun i hi => by
      obtain ⟨_, hc⟩ := regexCheck_ok_mem A _ _ _ _ h5 i hi
      exact hpc i (by rw [hc]; decide) (by rw [hc]; decide))
  have f6 : (uniqueCheck (df.getCol col) col kvs).filter p = [] :=
    filter_nil_of_false (fun i hi => by
      obtain ⟨_, hc⟩ := uniqueCheck_mem _ _ _ i hi
      exact hpc i (by rw [hc]; decide) (by rw [hc]; decide))
  have fM0 : (missingSection df req).filter p = [] :=
    filter_nil_of_false (fun i hi => by
      obtain ⟨_, hc⟩ := missingSection_mem df req i hi
      exact hpc i (by rw [hc]; decide) (by rw [hc]; decide))
  have fE0 : (extraSection df (s.allow_extra_columns.getD (Yaml.bool true)).truthy
      cmap).filter p = [] :=
    filter_nil_of_false (fun i hi => by
      obtain ⟨_, hc⟩ := extraSection_mem df _ cmap i hi
      exact hpc i (by rw [hc]; decide) (by rw [hc]; decide))
  have fP0 : (pkCheck df (s.primary_key.getD Yaml.null)).filter p = [] :=
    filter_nil_of_false (fun i hi => by
      obtain ⟨_, hc⟩ := pkCheck_mem df _ i hi
      have h1 : i.code ≠ "MIN_VIOLATION" := by
        have hall : ∀ x ∈ pkCodes, x ≠ "MIN_VIOLATION" := by decide
        exact hall _ hc
      have h2 : i.code ≠ "MAX_VIOLATION" := by
        have hall : ∀ x ∈ pkCodes, x ≠ "MAX_VIOLATION" := by decide
        exact hall _ hc
      exact hpc i h1 h2)
  have fR0 : (rulesCheck A df (s.rules.getD (Yaml.list []))).filter p = [] :=
    filter_nil_of_false (fun i hi => by
      obtain ⟨_, hc⟩ := rulesCheck_mem A df _ i hi
      have h1 : i.code ≠ "MIN_VIOLATION" := by
        have hall : ∀ x ∈ "SCHEMA_RULES_INVALID" :: ruleCodes, x ≠ "MIN_VIOLATION" := by
          decide
        exact hall _ hc
      have h2 : i.code ≠ "MAX_VIOLATION" := by
        have hall : ∀ x ∈ "SCHEMA_RULES_INVALID" :: ruleCodes, x ≠ "MAX_VIOLATION" := by
          decide
        exact hall _ hc
      exact hpc i h1 h2)
  rw [hiss]
  simp only [List.filter_append]
  rw [fM0, fE0, hCF, fP0, fR0]
  rw [hlceq, h3eq]
  simp only [List.filter_append]
  rw [fN, fD, f4, f5, f6]
  simp

/-- C5: for a schema column carrying `min` and/or `max`, the column values
are coerced to numeric with coercion failures and nulls dropped; among the
remaining values, if any is below `min` the result carries exactly one
MIN_VIOLATION ERROR for that column with n_rows the count of such values and
at most 5 examples (the offending values in order), and symmetrically any
value above `max` yields exactly one MAX_VIOLATION ERROR with count and up
to 5 examples; the two checks are independent (each fires from its own key
and bound alone, an absent key fires nothing).  Instantiated at min=0 over
[-1, 0, 5] this gives exactly one MIN_VIOLATION with n_rows=1 and example -1
and no MAX_VIOLATION (see the witness, which also exercises both bounds
firing on one column). -/
theorem C5_min_max_checks (A : Adapter) (df : Table) (s : Schema)
    (v : Bool) (iss : List ValidationIssue) (cmap : List (String × Yaml))
    (col : String) (sp : Yaml) (kvs : List (String × Yaml))
    (hcs : columnsSpecOf s = Yaml.map cmap) (hne : cmap ≠ [])
    (hnd : (cmap.map Prod.fst).Nodup)
    (hmem : (col, sp) ∈ cmap)
    (hsp : specOr sp = Yaml.map kvs)
    (hcol : df.hasCol col = true)
    (hok : validate A df s = .ok (v, iss)) :
    (∀ ymn : Yaml, ∀ mn : Rat, lookupKey kvs "min" = some ymn → pyFloat ymn = .ok mn →
      ((df.getCol col).values.filterMap coerceNum).filter (fun q => decide (q < mn)) ≠ [] →
      iss.filter (fun i => i.code == "MIN_VIOLATION" && i.column == some col) =
        [minViolationIssue col mn
          (((df.getCol col).values.filterMap coerceNum).filter (fun q => decide (q < mn)))] ∧
      (minViolationIssue col mn (((df.getCol col).values.filterMap coerceNum).filter
        (fun q => decide (q < mn)))).level = "ERROR" ∧
      (minViolationIssue col mn (((df.getCol col).values.filterMap coerceNum).filter
        (fun q => decide (q < mn)))).n_rows =
        some (((df.getCol col).values.filterMap coerceNum).filter
          (fun q => decide (q < mn))).length ∧
      (minViolationIssue col mn (((df.getCol col).values.filterMap coerceNum).filter
        (fun q => decide (q < mn)))).examples =
        some (((((df.getCol col).values.filterMap coerceNum).filter
          (fun q => decide (q < mn))).take 5).map Yaml.num)) ∧
    (∀ ymx : Yaml, ∀ mx : Rat, lookupKey kvs "max" = some ymx → pyFloat ymx = .ok mx →
      ((df.getCol col).values.filterMap coerceNum).filter (fun q => decide (mx < q)) ≠ [] →
      iss.filter (fun i => i.code == "MAX_VIOLATION" && i.column == some col) =
        [maxViolationIssue col mx
          (((df.getCol col).values.filterMap coerceNum).filter (fun q => decide (mx < q)))] ∧
      (maxViolationIssue col mx (((df.getCol col).values.filterMap coerceNum).filter
        (fun q => decide (mx < q)))).level = "ERROR" ∧
      (maxViolationIssue col mx (((df.getCol col).values.filterMap coerceNum).filter
        (fun q => decide (mx < q)))).n_rows =
        some (((df.getCol col).values.filterMap coerceNum).filter
          (fun q => decide (mx < q))).length ∧
      (maxViolationIssue col mx (((df.getCol col).values.filterMap coerceNum).filter
        (fun q => decide (mx < q)))).examples =
        some (((((df.getCol col).values.filterMap coerceNum).filter
          (fun q => decide (mx < q))).take 5).map Yaml.num)) ∧
    (lookupKey kvs "min" = none →
      iss.filter (fun i => i.code == "MIN_VIOLATION" && i.column == some col) = []) ∧
    (lookupKey kvs "max" = none →
      iss.filter (fun i => i.code == "MAX_VIOLATION" && i.column == some col) = []) := by
  have hpMin : ∀ i : ValidationIssue,
      (i.code == "MIN_VIOLATION" && i.column == some col) = true → i.column = some col := by
    intro i hpi
    simp only [Bool.and_eq_true] at hpi
    exact eq_of_beq hpi.2
  have hpMax : ∀ i : ValidationIssue,
      (i.code == "MAX_VIOLATION" && i.column == some col) = true → i.column = some col := by
    intro i hpi
    simp only [Bool.and_eq_true] at hpi
    exact eq_of_beq hpi.2
  have hpcMin : ∀ i : ValidationIssue, i.code ≠ "MIN_VIOLATION" → i.code ≠ "MAX_VIOLATION" →
      (i.code == "MIN_VIOLATION" && i.column == some col) = false := by
    intro i h1 _
    have hb : (i.code == "MIN_VIOLATION") = false := by
      cases hb2 : i.code == "MIN_VIOLATION" with
      | false => rfl
      | true => exact absurd (eq_of_beq hb2) h1
    rw [hb]
    rfl
  have hpcMax : ∀ i : ValidationIssue, i.code ≠ "MIN_VIOLATION" → i.code ≠ "MAX_VIOLATION" →
      (i.code == "MAX_VIOLATION" && i.column == some col) = false := by
    intro i _ h2
    have hb : (i.code == "MAX_VIOLATION") = false := by
      cases hb2 : i.code == "MAX_VIOLATION" with
      | false => rfl
      | true => exact absurd (eq_of_beq hb2) h2
    rw [hb]
    rfl
  obtain ⟨iMin, iMax, hMin, hMax, hfMin⟩ := iss_filter_range A df s v iss cmap col sp kvs
    (fun i => i.code == "MIN_VIOLATION" && i.column == some col) hpMin hpcMin
    hcs hne hnd hmem hsp hcol hok
  obtain ⟨iMin2, iMax2, hMin2, hMax2, hfMax⟩ := iss_filter_range A df s v iss cmap col sp kvs
    (fun i => i.code == "MAX_VIOLATION" && i.column == some col) hpMax hpcMax
    hcs hne hnd hmem hsp hcol hok
  have e1 : iMin2 = iMin := by
    rw [hMin] at hMin2
    injection hMin2 with hx
    exact hx.symm
  have e2 : iMax2 = iMax := by
    rw [hMax] at hMax2
    injection hMax2 with hx
    exact hx.symm
  rw [e1, e2] at hfMax
  have hMaxNoMin : iMax.filter
      (fun i => i.code == "MIN_VIOLATION" && i.column == some col) = [] :=
    filter_nil_of_false (fun i hi => by
      obtain ⟨_, hc⟩ := maxPart_ok_mem _ _ _ _ hMax i hi
      show (i.code == "MIN_VIOLATION" && i.column == some col) = false
      rw [hc]; rfl)
  have hMinNoMax : iMin.filter
      (fun i => i.code == "MAX_VIOLATION" && i.column == some col) = [] :=
    filter_nil_of_false (fun i hi => by
      obtain ⟨_, hc⟩ := minPart_ok_mem _ _ _ _ hMin i hi
      show (i.code == "MAX_VIOLATION" && i.column == some col) = false
      rw [hc]; rfl)
  refine ⟨?_, ?_, ?_, ?_⟩
  · intro ymn mn hkey hfloat hbad
    have hiMin : iMin = [minViolationIssue col mn
        (((df.getCol col).values.filterMap coerceNum).filter (fun q => decide (q < mn)))] := by
      rw [minPart_eq _ col kvs ymn mn hkey hfloat] at hMin
      injection hMin with hx
      rw [if_pos (List.length_pos.mpr hbad)] at hx
      exact hx.symm
    refine ⟨?_, rfl, rfl, rfl⟩
    rw [hfMin, hiMin, hMaxNoMin]
    have hpx : ((minViolationIssue col mn
        (((df.getCol col).values.filterMap coerceNum).filter
          (fun q => decide (q < mn)))).code == "MIN_VIOLATION" &&
        (minViolationIssue col mn
        (((df.getCol col).values.filterMap coerceNum).filter
          (fun q => decide (q < mn)))).column == some col) = true := by
      simp [minViolationIssue]
    simp [List.filter_cons, hpx]
  · intro ymx mx hkey hfloat hbad
    have hiMax : iMax = [maxViolationIssue col mx
        (((df.getCol col).values.filterMap coerceNum).filter (fun q => decide (mx < q)))] := by
      rw [maxPart_eq _ col kvs ymx mx hkey hfloat] at hMax
      injection hMax with hx
      rw [if_pos (List.length_pos.mpr hbad)] at hx
      exact hx.symm
    refine ⟨?_, rfl, rfl, rfl⟩
    rw [hfMax, hiMax, hMinNoMax]
    have hpx : ((maxViolationIssue col mx
        (((df.getCol col).values.filterMap coerceNum).filter
          (fun q => decide (mx < q)))).code == "MAX_VIOLATION" &&
        (maxViolationIssue col mx
        (((df.getCol col).values.filterMap coerceNum).filter
          (fun q => decide (mx < q)))).column == some col) = true := by
      simp [maxViolationIssue]
    simp [List.filter_cons, hpx]
  · intro hnone
    have hiMin : iMin = [] := by
      rw [minPart_none _ col kvs hnone] at hMin
      injection hMin with hx
      exact hx.symm
    rw [hfMin, hiMin, hMaxNoMin]
    rfl
  · intro hnone
    have hiMax : iMax = [] := by
      rw [maxPart_none _ col kvs hnone] at hMax
      injection hMax with hx
      exact hx.symm
    rw [hfMax, hiMax, hMinNoMax]
    rfl

theorem C5_min_max_checks_witness :
    ([minViolationIssue "x" 0 [-1]] : List ValidationIssue).filter
        (fun i => i.code == "MIN_VIOLATION" && i.column == some "x") =
      [minViolationIssue "x" 0 [-1]] ∧
    (minViolationIssue "x" 0 [-1]).n_rows = some 1 ∧
    (minViolationIssue "x" 0 [-1]).examples = some [Yaml.num (-1)] ∧
    ([minViolationIssue "x" 0 [-1]] : List ValidationIssue).filter
        (fun i => i.code == "MAX_VIOLATION" && i.column == some "x") = [] ∧
    ([minViolationIssue "y" 0 [-1], maxViolationIssue "y" 10 [99]] :
        List ValidationIssue).filter
        (fun i => i.code == "MIN_VIOLATION" && i.column == some "y") =
      [minViolationIssue "y" 0 [-1]] ∧
    ([minViolationIssue "y" 0 [-1], maxViolationIssue "y" 10 [99]] :
        List ValidationIssue).filter
        (fun i => i.code == "MAX_VIOLATION" && i.column == some "y") =
      [maxViolationIssue "y" 10 [99]] ∧
    (maxViolationIssue "y" 10 [99]).level = "ERROR" ∧
    (maxViolationIssue "y" 10 [99]).n_rows = some 1 ∧
    (maxViolationIssue "y" 10 [99]).examples = some [Yaml.num 99] := by
  have hA := C5_min_max_checks adA df5 s5w false [minViolationIssue "x" 0 [-1]]
    [("x", Yaml.map [("min", Yaml.int 0)])] "x" (Yaml.map [("min", Yaml.int 0)])
    [("min", Yaml.int 0)]
    rfl (by simp) (by simp) (List.mem_singleton.mpr rfl) rfl rfl rfl
  have hB := C5_min_max_checks adA df5b s5b false
    [minViolationIssue "y" 0 [-1], maxViolationIssue "y" 10 [99]]
    [("y", Yaml.map [("min", Yaml.int 0), ("max", Yaml.int 10)])] "y"
    (Yaml.map [("min", Yaml.int 0), ("max", Yaml.int 10)])
    [("min", Yaml.int 0), ("max", Yaml.int 10)]
    rfl (by simp) (by simp) (List.mem_singleton.mpr rfl) rfl rfl rfl
  have hA1 := hA.1 (Yaml.int 0) 0 rfl rfl (by decide)
  have hB1 := hB.1 (Yaml.int 0) 0 rfl rfl (by decide)
  have hB2 := hB.2.1 (Yaml.int 10) 10 rfl rfl (by decide)
  exact ⟨hA1.1, hA1.2.2.1, hA1.2.2.2, hA.2.2.2 rfl, hB1.1, hB2.1, hB2.2.1, hB2.2.2.1,
    hB2.2.2.2⟩
